/-
Verification of the SafeTravels cargo-theft risk engine.

Shallow embedding of the core scoring modules:
  * `risk_model_weights.py`  (weight tables and helpers)
  * `risk_scorer.py`         (multi-factor point risk assessment)
  * `route_scanner.py`       (route sampling and zone grouping)
  * `safe_stops.py`          (stop security scoring and search)

Python floats are modelled as rationals (`ℚ`) wherever the computation is
exact decimal arithmetic, and as reals (`ℝ`) where transcendental functions
(haversine distance) are involved.  Python `round(x, 1)` is modelled as
round-half-to-even on rationals.  Stateful code (the mutation of the caller's
`RiskContext` inside `scan_route`) is modelled by explicit state passing:
the Lean `scanRoute` returns the final state of the context alongside the
analysis.  Data that the Python code loads from JSON files at runtime
(truck-stop catalog, FBI crime data, cargo-theft hotspots) and the external
collaborators (Google Places, the real-time aggregator, `settings`) are
passed as explicit parameters.
-/
import Mathlib

namespace SafeTravels

/-! ## risk_model_weights.py -/

/-- `dict.get(key, default)` over an association list (all table keys are
distinct, so lookup order is immaterial). -/
def lookupD (tbl : List (String × ℚ)) (key : String) (dflt : ℚ) : ℚ :=
  match tbl with
  | [] => dflt
  | p :: rest => if p.1 == key then p.2 else lookupD rest key dflt

def MAX_RISK_SCORE : ℚ := 10
def MIN_RISK_SCORE : ℚ := 1

-- RISK_THRESHOLDS
def THRESHOLD_LOW : ℚ := 3
def THRESHOLD_MODERATE : ℚ := 5
def THRESHOLD_HIGH : ℚ := 7

def TIME_WEIGHTS : List (String × ℚ) :=
  [("night", 3/2), ("evening", 5/4), ("day", 1)]

def DAY_WEIGHTS : List (String × ℚ) :=
  [("monday", 1), ("tuesday", 1), ("wednesday", 1), ("thursday", 21/20),
   ("friday", 23/20), ("saturday", 6/5), ("sunday", 11/10)]

def MONTH_WEIGHTS : List (String × ℚ) :=
  [("january", 11/10), ("february", 1), ("march", 1), ("april", 1),
   ("may", 1), ("june", 11/10), ("july", 11/10), ("august", 6/5),
   ("september", 23/20), ("october", 11/10), ("november", 13/10),
   ("december", 7/5)]

def SEASON_WEIGHTS : List (String × ℚ) :=
  [("black_friday_week", 3/2), ("holiday_peak", 7/5), ("christmas_week", 29/20),
   ("new_years_week", 13/10), ("back_to_school", 6/5), ("summer", 11/10),
   ("normal", 1)]

def COMMODITY_WEIGHTS : List (String × ℚ) :=
  [("electronics", 3/2), ("pharmaceuticals", 29/20), ("consumer_electronics", 3/2),
   ("computers", 29/20), ("phones", 7/5),
   ("alcohol", 13/10), ("tobacco", 13/10), ("automotive_parts", 5/4),
   ("appliances", 6/5), ("clothing", 6/5), ("footwear", 6/5),
   ("household_goods", 11/10), ("cosmetics", 23/20), ("tools", 11/10),
   ("food_beverage", 1), ("produce", 19/20), ("raw_materials", 9/10),
   ("lumber", 17/20), ("general", 1)]

/-- `CARGO_VALUE_TIERS`: `(min_value, max_value, multiplier)` in the source's
dict order; `none` for `float('inf')`. -/
def CARGO_VALUE_TIERS : List (ℚ × Option ℚ × ℚ) :=
  [(1000000, none, 8/5),
   (500000, some 999999, 7/5),
   (250000, some 499999, 5/4),
   (100000, some 249999, 11/10),
   (0, some 99999, 1)]

def LOCATION_WEIGHTS : List (String × ℚ) :=
  [("random_roadside", 8/5), ("unsecured_lot", 3/2), ("abandoned_area", 17/10),
   ("rest_area", 13/10), ("truck_stop_basic", 11/10), ("industrial_area", 6/5),
   ("truck_stop_secured", 4/5), ("truck_stop_premium", 7/10),
   ("distribution_center", 3/5), ("shipper_facility", 1/2)]

def HOTSPOT_STATES : List (String × ℚ) :=
  [("CA", 27/20), ("TX", 13/10), ("FL", 5/4), ("IL", 6/5), ("GA", 6/5),
   ("NJ", 23/20), ("PA", 11/10), ("TN", 11/10), ("AZ", 11/10), ("NM", 21/20)]

def DEFAULT_STATE_WEIGHT : ℚ := 1

def WEATHER_WEIGHTS : List (String × ℚ) :=
  [("severe_storm", 27/20), ("storm", 5/4), ("heavy_rain", 23/20),
   ("fog", 6/5), ("snow", 23/20), ("ice", 6/5), ("extreme_heat", 21/20),
   ("clear", 1), ("cloudy", 1), ("light_rain", 1)]

def EVENT_WEIGHTS : List (String × ℚ) :=
  [("civil_unrest", 2), ("riot", 2), ("major_protest", 8/5),
   ("emergency_evacuation", 3/2), ("large_event", 13/10), ("festival", 5/4),
   ("convention", 6/5), ("holiday", 23/20), ("construction", 11/10),
   ("none", 1)]

def TRAFFIC_WEIGHTS : List (String × ℚ) :=
  [("standstill", 3/2), ("severe", 7/5), ("heavy", 5/4), ("moderate", 11/10),
   ("light", 1), ("free_flow", 19/20)]

def ACCIDENT_HISTORY_WEIGHTS : List (String × ℚ) :=
  [("very_high", 7/5), ("high", 5/4), ("moderate", 11/10), ("low", 1),
   ("very_low", 19/20)]

/-- `ROUTE_LENGTH_TIERS`: `(min_miles, max_miles, multiplier)`. -/
def ROUTE_LENGTH_TIERS : List (ℚ × Option ℚ × ℚ) :=
  [(1500, none, 7/5),
   (1000, some 1499, 5/4),
   (500, some 999, 11/10),
   (0, some 499, 1)]

/-- `get_risk_level(score)` from `risk_model_weights.py`. -/
def getRiskLevel (score : ℚ) : String :=
  if score ≤ THRESHOLD_LOW then "low"
  else if score ≤ THRESHOLD_MODERATE then "moderate"
  else if score ≤ THRESHOLD_HIGH then "high"
  else "critical"

/-- `clamp_score(score)`: `max(MIN, min(score, MAX))`. -/
def clampScore (score : ℚ) : ℚ :=
  max MIN_RISK_SCORE (min score MAX_RISK_SCORE)

/-- `v ≤ max_value`, where `none` stands for `float('inf')`. -/
def leUpper (v : ℚ) : Option ℚ → Bool
  | some h => decide (v ≤ h)
  | none => true

/-- First matching range of a `(min, max, multiplier)` tier table wins;
default `1.0` when no range matches (shared shape of
`get_value_multiplier` and `get_route_length_multiplier`). -/
def tierLookup (tiers : List (ℚ × Option ℚ × ℚ)) (v : ℚ) : ℚ :=
  match tiers with
  | [] => 1
  | (lo, hi, m) :: rest =>
    if lo ≤ v ∧ leUpper v hi then m
    else tierLookup rest v

/-- `get_value_multiplier(cargo_value)`. -/
def getValueMultiplier (cargo_value : ℚ) : ℚ :=
  tierLookup CARGO_VALUE_TIERS cargo_value

/-- ASCII uppercase of one character (Python `str.upper` restricted to the
ASCII state codes this program uses). -/
def charUpper (c : Char) : Char :=
  if c.isLower then Char.ofNat (c.toNat - 32) else c

/-- Python `state_code.upper()` (ASCII). -/
def pyUpper (s : String) : String :=
  String.mk (s.data.map charUpper)

/-- `get_state_multiplier(state_code)`: case-insensitive lookup with
default `DEFAULT_STATE_WEIGHT`. -/
def getStateMultiplier (state_code : String) : ℚ :=
  lookupD HOTSPOT_STATES (pyUpper state_code) DEFAULT_STATE_WEIGHT

/-! ## Rounding

Python's `round(x, 1)` rounds half to even.  We model it on rationals. -/

/-- Round half to even to the nearest integer. -/
def roundHalfEven (q : ℚ) : ℤ :=
  if q - ⌊q⌋ < 1/2 then ⌊q⌋
  else if 1/2 < q - ⌊q⌋ then ⌊q⌋ + 1
  else if 2 ∣ ⌊q⌋ then ⌊q⌋ else ⌊q⌋ + 1

/-- Python `round(x, 1)`. -/
def round1 (q : ℚ) : ℚ :=
  (roundHalfEven (10 * q) : ℚ) / 10

/-! ## risk_scorer.py -/

/-- `RiskContext` dataclass, with the source's field defaults. -/
structure RiskContext where
  time_of_day : String := "day"
  day_of_week : String := "monday"
  month : String := "january"
  season : String := "normal"
  commodity : String := "general"
  cargo_value : ℚ := 50000
  location_type : String := "truck_stop_basic"
  state : String := ""
  weather : String := "clear"
  event : String := "none"
  traffic : String := "light"
  accident_history : String := "low"
  deriving DecidableEq, Repr

/-- `FactorBreakdown` dataclass. -/
structure FactorBreakdown where
  base_crime_rate : ℚ
  time_of_day : ℚ
  day_of_week : ℚ
  month : ℚ
  season : ℚ
  commodity : ℚ
  cargo_value : ℚ
  location_type : ℚ
  state : ℚ
  weather : ℚ
  event : ℚ
  traffic : ℚ
  accident_history : ℚ
  deriving DecidableEq, Repr

/-- `RiskAssessment` dataclass. -/
structure RiskAssessment where
  latitude : ℚ
  longitude : ℚ
  risk_score : ℚ
  risk_level : String
  factors : FactorBreakdown
  confidence : ℚ
  warnings : List String
  deriving DecidableEq, Repr

/-- `HIGH_RISK_METROS` from `_get_mock_crime_rate`:
`(lat, lon, radius_degrees, base_score)` (names elided). -/
def HIGH_RISK_METROS : List (ℚ × ℚ × ℚ × ℚ) :=
  [(3405/100, -11825/100, 1/2, 11/2),
   (3278/100, -9680/100, 3/10, 5),
   (2976/100, -9537/100, 2/5, 9/2),
   (3375/100, -8439/100, 3/10, 9/2),
   (4188/100, -8763/100, 3/10, 5),
   (2576/100, -8019/100, 2/5, 5),
   (4071/100, -7401/100, 3/10, 4),
   (3995/100, -7517/100, 3/10, 4),
   (3523/100, -8084/100, 3/10, 7/2),
   (3515/100, -9005/100, 3/10, 4)]

/-- Loop body of `_get_mock_crime_rate` over `HIGH_RISK_METROS`. -/
def metroScan (latitude longitude : ℚ) : List (ℚ × ℚ × ℚ × ℚ) → ℚ
  | [] => 3
  | t :: rest =>
    if |latitude - t.1| < t.2.2.1 ∧ |longitude - t.2.1| < t.2.2.1 then t.2.2.2
    else metroScan latitude longitude rest

/-- `_get_mock_crime_rate`: first metro whose bounding box contains the point
wins; default baseline `3.0`.  The `state` argument is accepted but unused,
exactly as in the source. -/
def mockCrimeRate (latitude longitude : ℚ) (_state : String) : ℚ :=
  metroScan latitude longitude HIGH_RISK_METROS

/-- The weight-retrieval block of `calculate_risk`, packaged as the
`FactorBreakdown` it builds (each lookup falls back to `1.0`). -/
def factorsOf (base_crime_rate : ℚ) (c : RiskContext) : FactorBreakdown where
  base_crime_rate := base_crime_rate
  time_of_day := lookupD TIME_WEIGHTS c.time_of_day 1
  day_of_week := lookupD DAY_WEIGHTS c.day_of_week 1
  month := lookupD MONTH_WEIGHTS c.month 1
  season := lookupD SEASON_WEIGHTS c.season 1
  commodity := lookupD COMMODITY_WEIGHTS c.commodity 1
  cargo_value := getValueMultiplier c.cargo_value
  location_type := lookupD LOCATION_WEIGHTS c.location_type 1
  state := getStateMultiplier c.state
  weather := lookupD WEATHER_WEIGHTS c.weather 1
  event := lookupD EVENT_WEIGHTS c.event 1
  traffic := lookupD TRAFFIC_WEIGHTS c.traffic 1
  accident_history := lookupD ACCIDENT_HISTORY_WEIGHTS c.accident_history 1

/-- `raw_score`: the product of the base crime rate and the twelve factor
multipliers, exactly as written in `calculate_risk`. -/
def rawScore (base_crime_rate : ℚ) (c : RiskContext) : ℚ :=
  let f := factorsOf base_crime_rate c
  base_crime_rate * f.time_of_day * f.day_of_week * f.month * f.season
    * f.commodity * f.cargo_value * f.location_type * f.state
    * f.weather * f.event * f.traffic * f.accident_history

/-- `_generate_warnings(context, factors)`. -/
def generateWarnings (c : RiskContext) (f : FactorBreakdown) : List String :=
  (if f.event ≥ 3/2 then
    ["⚠️ HIGH ALERT: Major event (" ++ c.event ++ ") significantly increases theft risk. Consider avoiding this area."]
   else []) ++
  (if f.time_of_day ≥ 3/2 ∧ f.cargo_value ≥ 5/4 then
    ["🌙 Night travel with high-value cargo is extremely risky. Consider secured overnight parking."]
   else []) ++
  (if f.weather ≥ 6/5 then
    ["🌧️ Weather condition (" ++ c.weather ++ ") may delay emergency response and reduce visibility."]
   else []) ++
  (if f.traffic ≥ 13/10 then
    ["🚗 Heavy traffic or standstill conditions make the truck a stationary target. Find secure parking if stuck."]
   else []) ++
  (if f.location_type ≥ 7/5 then
    ["📍 Location type (" ++ c.location_type ++ ") is high-risk. Seek secured truck stop if possible."]
   else []) ++
  (if f.state ≥ 6/5 then
    ["🗺️ State (" ++ c.state ++ ") is a documented cargo theft hotspot. Maintain heightened awareness."]
   else []) ++
  (if f.commodity ≥ 7/5 then
    ["📦 Commodity (" ++ c.commodity ++ ") is a high-value theft target. Consider additional security measures."]
   else [])

/-- `_calculate_confidence(factors)`: `0.65` plus `0.02` per listed factor
whose weight is not `1.0`, capped at `0.95`.  The source's list covers
eleven factors; `factors.season` is not among them. -/
def calculateConfidence (f : FactorBreakdown) : ℚ :=
  let non_default_factors : ℕ :=
    ([f.time_of_day, f.day_of_week, f.month, f.commodity, f.cargo_value,
      f.location_type, f.state, f.weather, f.event, f.traffic,
      f.accident_history].filter (fun w => w ≠ 1)).length
  min (13/20 + (non_default_factors : ℚ) * (1/50)) (19/20)

/-- `calculate_risk(latitude, longitude, context, base_crime_rate)`.
The optional `context` defaulting is handled at call sites; `none` for
`base_crime_rate` takes the mock-crime-rate path. -/
def calculateRisk (latitude longitude : ℚ) (c : RiskContext)
    (base_crime_rate : Option ℚ) : RiskAssessment :=
  let base : ℚ :=
    match base_crime_rate with
    | some b => b
    | none => mockCrimeRate latitude longitude c.state
  let factors := factorsOf base c
  let final_score := clampScore (rawScore base c)
  { latitude := latitude
    longitude := longitude
    risk_score := round1 final_score
    risk_level := getRiskLevel final_score
    factors := factors
    confidence := calculateConfidence factors
    warnings := generateWarnings c factors }

end SafeTravels



namespace SafeTravels

/-! ## Supporting lemmas about rounding, clamping and table lookups -/

lemma floor_le_roundHalfEven (q : ℚ) : ⌊q⌋ ≤ roundHalfEven q := by
  unfold roundHalfEven
  split_ifs <;> omega

lemma roundHalfEven_le_floor_add_one (q : ℚ) : roundHalfEven q ≤ ⌊q⌋ + 1 := by
  unfold roundHalfEven
  split_ifs <;> omega

lemma round1_lower {x : ℚ} (h : 1 ≤ x) : 1 ≤ round1 x := by
  have h10 : (10 : ℤ) ≤ ⌊10 * x⌋ := by
    rw [Int.le_floor]
    push_cast
    linarith
  have hfl := floor_le_roundHalfEven (10 * x)
  unfold round1
  rw [le_div_iff₀ (by norm_num : (0:ℚ) < 10)]
  calc (1 : ℚ) * 10 = ((10 : ℤ) : ℚ) := by norm_num
    _ ≤ ((roundHalfEven (10 * x) : ℤ) : ℚ) := by exact_mod_cast le_trans h10 hfl

lemma round1_upper {x : ℚ} (h : x ≤ 10) : round1 x ≤ 10 := by
  rcases eq_or_lt_of_le h with heq | hlt
  · subst heq
    have h100 : roundHalfEven (10 * 10) = 100 := by
      norm_num [roundHalfEven]
    unfold round1
    rw [h100]
    norm_num
  · have h100 : ⌊10 * x⌋ < 100 := by
      rw [Int.floor_lt]
      push_cast
      linarith
    have hle := roundHalfEven_le_floor_add_one (10 * x)
    have hfin : roundHalfEven (10 * x) ≤ 100 := by omega
    unfold round1
    rw [div_le_iff₀ (by norm_num : (0:ℚ) < 10)]
    calc ((roundHalfEven (10 * x) : ℤ) : ℚ) ≤ ((100 : ℤ) : ℚ) := by exact_mod_cast hfin
      _ = 10 * 10 := by norm_num

lemma clampScore_bounds (s : ℚ) : 1 ≤ clampScore s ∧ clampScore s ≤ 10 := by
  unfold clampScore MIN_RISK_SCORE MAX_RISK_SCORE
  constructor
  · exact le_max_left _ _
  · exact max_le (by norm_num) (min_le_right _ _)

lemma clampScore_id {s : ℚ} (h1 : 1 ≤ s) (h2 : s ≤ 10) : clampScore s = s := by
  unfold clampScore MIN_RISK_SCORE MAX_RISK_SCORE
  rw [min_eq_left h2, max_eq_right h1]

lemma round1_eval_down {q : ℚ} {f : ℤ} (hf : ⌊10*q⌋ = f) (hlt : 10*q - f < 1/2) :
    round1 q = f/10 := by
  unfold round1 roundHalfEven
  rw [hf, if_pos hlt]

lemma tierLookup_no_match {tiers : List (ℚ × Option ℚ × ℚ)} {v : ℚ}
    (h : ∀ t ∈ tiers, ¬(t.1 ≤ v ∧ leUpper v t.2.1 = true)) : tierLookup tiers v = 1 := by
  induction tiers with
  | nil => rfl
  | cons t rest ih =>
    rw [tierLookup, if_neg (h t (by simp))]
    exact ih (fun s hs => h s (by simp [hs]))

/-- Neutral context: every factor resolves to the multiplier `1.0`
(the location type is an unrecognized key, falling back to the default). -/
def ctxNeutral : RiskContext := { month := "february", location_type := "other" }

/-- Neutral context except that the season is `"summer"` (multiplier `1.1`). -/
def ctxSeason : RiskContext := { ctxNeutral with season := "summer" }

lemma getValueMultiplier_50000 : getValueMultiplier 50000 = 1 := by
  norm_num [getValueMultiplier, CARGO_VALUE_TIERS, tierLookup, leUpper]

lemma getStateMultiplier_empty : getStateMultiplier "" = 1 := by
  simp [getStateMultiplier, lookupD, HOTSPOT_STATES, DEFAULT_STATE_WEIGHT,
    show pyUpper "" = "" from by decide]

lemma factors_ctxNeutral (b : ℚ) :
    factorsOf b ctxNeutral = ⟨b, 1, 1, 1, 1, 1, 1, 1, 1, 1, 1, 1, 1⟩ := by
  have ht : lookupD TIME_WEIGHTS "day" 1 = 1 := by simp [lookupD, TIME_WEIGHTS]
  have hd : lookupD DAY_WEIGHTS "monday" 1 = 1 := by simp [lookupD, DAY_WEIGHTS]
  have hm : lookupD MONTH_WEIGHTS "february" 1 = 1 := by simp [lookupD, MONTH_WEIGHTS]
  have hs : lookupD SEASON_WEIGHTS "normal" 1 = 1 := by simp [lookupD, SEASON_WEIGHTS]
  have hc : lookupD COMMODITY_WEIGHTS "general" 1 = 1 := by simp [lookupD, COMMODITY_WEIGHTS]
  have hl : lookupD LOCATION_WEIGHTS "other" 1 = 1 := by simp [lookupD, LOCATION_WEIGHTS]
  have hw : lookupD WEATHER_WEIGHTS "clear" 1 = 1 := by simp [lookupD, WEATHER_WEIGHTS]
  have he : lookupD EVENT_WEIGHTS "none" 1 = 1 := by simp [lookupD, EVENT_WEIGHTS]
  have htr : lookupD TRAFFIC_WEIGHTS "light" 1 = 1 := by simp [lookupD, TRAFFIC_WEIGHTS]
  have ha : lookupD ACCIDENT_HISTORY_WEIGHTS "low" 1 = 1 := by
    simp [lookupD, ACCIDENT_HISTORY_WEIGHTS]
  unfold factorsOf
  dsimp only [ctxNeutral]
  rw [ht, hd, hm, hs, hc, getValueMultiplier_50000, hl, getStateMultiplier_empty,
    hw, he, htr, ha]

lemma factors_ctxSeason (b : ℚ) :
    factorsOf b ctxSeason = ⟨b, 1, 1, 1, 11/10, 1, 1, 1, 1, 1, 1, 1, 1⟩ := by
  have ht : lookupD TIME_WEIGHTS "day" 1 = 1 := by simp [lookupD, TIME_WEIGHTS]
  have hd : lookupD DAY_WEIGHTS "monday" 1 = 1 := by simp [lookupD, DAY_WEIGHTS]
  have hm : lookupD MONTH_WEIGHTS "february" 1 = 1 := by simp [lookupD, MONTH_WEIGHTS]
  have hs : lookupD SEASON_WEIGHTS "summer" 1 = 11/10 := by simp [lookupD, SEASON_WEIGHTS]
  have hc : lookupD COMMODITY_WEIGHTS "general" 1 = 1 := by simp [lookupD, COMMODITY_WEIGHTS]
  have hl : lookupD LOCATION_WEIGHTS "other" 1 = 1 := by simp [lookupD, LOCATION_WEIGHTS]
  have hw : lookupD WEATHER_WEIGHTS "clear" 1 = 1 := by simp [lookupD, WEATHER_WEIGHTS]
  have he : lookupD EVENT_WEIGHTS "none" 1 = 1 := by simp [lookupD, EVENT_WEIGHTS]
  have htr : lookupD TRAFFIC_WEIGHTS "light" 1 = 1 := by simp [lookupD, TRAFFIC_WEIGHTS]
  have ha : lookupD ACCIDENT_HISTORY_WEIGHTS "low" 1 = 1 := by
    simp [lookupD, ACCIDENT_HISTORY_WEIGHTS]
  unfold factorsOf
  dsimp only [ctxSeason, ctxNeutral]
  rw [ht, hd, hm, hs, hc, getValueMultiplier_50000, hl, getStateMultiplier_empty,
    hw, he, htr, ha]

lemma rawScore_ctxNeutral (b : ℚ) : rawScore b ctxNeutral = b := by
  unfold rawScore
  rw [factors_ctxNeutral b]
  norm_num

lemma mockCrimeRate_origin : mockCrimeRate 0 0 "" = 3 := by
  norm_num [mockCrimeRate, metroScan, HIGH_RISK_METROS, abs_lt]

end SafeTravels

namespace SafeTravels

/-! ## C1 -/

/-- C1 (amended): for every context and explicitly supplied base crime rate,
`calculate_risk` returns a `risk_score` equal to the product of the base rate
and the twelve factor multipliers, clamped to `[1, 10]` and then rounded to
one decimal place (Python `round(x, 1)`). -/
theorem C1_risk_score_rounded (lat lon : ℚ) (c : RiskContext) (b : ℚ) :
    (calculateRisk lat lon c (some b)).risk_score =
      round1 (clampScore (rawScore b c)) := rfl

/-- C1 counterexample: with the neutral context and base crime rate `3.14`,
the clamped product is `3.14` but the returned `risk_score` is `3.1` —
the claim omits the final rounding to one decimal. -/
theorem C1_counterexample :
    (calculateRisk 0 0 ctxNeutral (some (157/50))).risk_score ≠
      clampScore (rawScore (157/50) ctxNeutral) := by
  show round1 (clampScore (rawScore (157/50) ctxNeutral)) ≠
    clampScore (rawScore (157/50) ctxNeutral)
  rw [rawScore_ctxNeutral, clampScore_id (by norm_num) (by norm_num),
    round1_eval_down (f := 31) (by norm_num) (by norm_num)]
  norm_num

/-! ## C2 -/

/-- C2 (amended): the returned `risk_score` always lies in `[1, 10]`, and the
returned `risk_level` is derived by the fixed thresholds (≤3 low, ≤5 moderate,
≤7 high, else critical) from the clamped *pre-rounding* score — not from the
returned (rounded) `risk_score`, from which it can differ. -/
theorem C2_bounds_and_level (lat lon : ℚ) (c : RiskContext) (b : Option ℚ) :
    (1 ≤ (calculateRisk lat lon c b).risk_score ∧
      (calculateRisk lat lon c b).risk_score ≤ 10) ∧
    (calculateRisk lat lon c b).risk_level =
      getRiskLevel (clampScore (rawScore
        (b.getD (mockCrimeRate lat lon c.state)) c)) := by
  refine ⟨⟨?_, ?_⟩, ?_⟩
  · exact round1_lower (clampScore_bounds _).1
  · exact round1_upper (clampScore_bounds _).2
  · cases b <;> rfl

/-- C2 counterexample: with the neutral context and base crime rate `7.02`,
the unrounded clamped score is `7.02` (level "critical") while the returned
`risk_score` is `7.0`, whose threshold level would be "high": the returned
`risk_level` is not the level of the returned `risk_score`. -/
theorem C2_counterexample :
    (calculateRisk 0 0 ctxNeutral (some (351/50))).risk_level ≠
      getRiskLevel ((calculateRisk 0 0 ctxNeutral (some (351/50))).risk_score) := by
  show getRiskLevel (clampScore (rawScore (351/50) ctxNeutral)) ≠
    getRiskLevel (round1 (clampScore (rawScore (351/50) ctxNeutral)))
  rw [rawScore_ctxNeutral, clampScore_id (by norm_num) (by norm_num),
    round1_eval_down (f := 70) (by norm_num) (by norm_num)]
  have h1 : getRiskLevel (351/50) = "critical" := by
    norm_num [getRiskLevel, THRESHOLD_LOW, THRESHOLD_MODERATE, THRESHOLD_HIGH]
  have h2 : getRiskLevel (((70:ℤ) : ℚ)/10) = "high" := by
    norm_num [getRiskLevel, THRESHOLD_LOW, THRESHOLD_MODERATE, THRESHOLD_HIGH]
  rw [h1, h2]
  decide

/-! ## C5 -/

/-- C5 (amended): the returned confidence equals
`min(0.65 + 0.02 * k, 0.95)` where `k` counts, among *eleven* of the factor
multipliers of the returned breakdown — `season` excluded — those that differ
from `1.0`. -/
theorem C5_confidence_formula (lat lon : ℚ) (c : RiskContext) (b : Option ℚ) :
    (calculateRisk lat lon c b).confidence =
      min (13/20 +
        ((([(calculateRisk lat lon c b).factors.time_of_day,
            (calculateRisk lat lon c b).factors.day_of_week,
            (calculateRisk lat lon c b).factors.month,
            (calculateRisk lat lon c b).factors.commodity,
            (calculateRisk lat lon c b).factors.cargo_value,
            (calculateRisk lat lon c b).factors.location_type,
            (calculateRisk lat lon c b).factors.state,
            (calculateRisk lat lon c b).factors.weather,
            (calculateRisk lat lon c b).factors.event,
            (calculateRisk lat lon c b).factors.traffic,
            (calculateRisk lat lon c b).factors.accident_history].filter
              (fun w => w ≠ 1)).length : ℚ) * (1/50))) (19/20) := rfl

/-- C5 counterexample: for a context whose only non-neutral factor is the
season multiplier (`season = "summer"`, weight `1.1`), the claim's formula
(counting every factor, season included) yields `0.67`, but the code returns
the base `0.65`: the season factor is not counted. -/
theorem C5_counterexample :
    (calculateRisk 0 0 ctxSeason none).confidence ≠
      min (13/20 +
        ((([(calculateRisk 0 0 ctxSeason none).factors.time_of_day,
            (calculateRisk 0 0 ctxSeason none).factors.day_of_week,
            (calculateRisk 0 0 ctxSeason none).factors.month,
            (calculateRisk 0 0 ctxSeason none).factors.season,
            (calculateRisk 0 0 ctxSeason none).factors.commodity,
            (calculateRisk 0 0 ctxSeason none).factors.cargo_value,
            (calculateRisk 0 0 ctxSeason none).factors.location_type,
            (calculateRisk 0 0 ctxSeason none).factors.state,
            (calculateRisk 0 0 ctxSeason none).factors.weather,
            (calculateRisk 0 0 ctxSeason none).factors.event,
            (calculateRisk 0 0 ctxSeason none).factors.traffic,
            (calculateRisk 0 0 ctxSeason none).factors.accident_history].filter
              (fun w => w ≠ 1)).length : ℚ) * (1/50))) (19/20) := by
  have hfac : (calculateRisk 0 0 ctxSeason none).factors =
      ⟨3, 1, 1, 1, 11/10, 1, 1, 1, 1, 1, 1, 1, 1⟩ := by
    show factorsOf (mockCrimeRate 0 0 ctxSeason.state) ctxSeason = _
    have hst : ctxSeason.state = "" := rfl
    rw [hst, mockCrimeRate_origin, factors_ctxSeason]
  have hconf : (calculateRisk 0 0 ctxSeason none).confidence = 13/20 := by
    show calculateConfidence (factorsOf (mockCrimeRate 0 0 ctxSeason.state) ctxSeason) = 13/20
    have hst : ctxSeason.state = "" := rfl
    rw [hst, mockCrimeRate_origin, factors_ctxSeason]
    unfold calculateConfidence
    norm_num [List.filter_cons]
  rw [hconf, hfac]
  norm_num [List.filter_cons]

/-! ## C10 -/

/-- C10: any cargo value strictly inside a gap between adjacent value-tier
ranges matches no range, so `get_value_multiplier` returns the default `1.0`;
consequently the multiplier is not monotone in the cargo value
(`249999 ↦ 1.1` but `249999.5 ↦ 1.0`). -/
theorem C10_value_tier_gaps :
    (∀ v : ℚ,
      (99999 < v ∧ v < 100000) ∨ (249999 < v ∧ v < 250000) ∨
      (499999 < v ∧ v < 500000) ∨ (999999 < v ∧ v < 1000000) →
      getValueMultiplier v = 1) ∧
    getValueMultiplier 249999 = 11/10 ∧
    getValueMultiplier (499999/2) = 1 ∧ (249999 : ℚ) < 499999/2 ∧
    getValueMultiplier 249999 > getValueMultiplier (499999/2) := by
  have hc1 : getValueMultiplier 249999 = 11/10 := by
    norm_num [getValueMultiplier, CARGO_VALUE_TIERS, tierLookup, leUpper]
  have hc2 : getValueMultiplier (499999/2) = 1 := by
    norm_num [getValueMultiplier, CARGO_VALUE_TIERS, tierLookup, leUpper]
  refine ⟨?_, hc1, hc2, by norm_num, by rw [hc1, hc2]; norm_num⟩
  intro v h
  show tierLookup CARGO_VALUE_TIERS v = 1
  rcases h with ⟨h1, h2⟩ | ⟨h1, h2⟩ | ⟨h1, h2⟩ | ⟨h1, h2⟩ <;>
  · refine tierLookup_no_match ?_
    intro t ht
    simp only [CARGO_VALUE_TIERS, List.mem_cons, List.not_mem_nil, or_false] at ht
    rcases ht with rfl | rfl | rfl | rfl | rfl <;>
      rintro ⟨hx, hy⟩ <;>
      first
        | linarith
        | (simp only [leUpper, decide_eq_true_eq] at hy; linarith)

/-- C10 witness: `99999.5` lies strictly inside the first gap and the theorem
evaluates `get_value_multiplier` to `1.0` there. -/
theorem C10_witness :
    ((99999 : ℚ) < 199999/2 ∧ (199999 : ℚ)/2 < 100000) ∧
      getValueMultiplier (199999/2) = 1 :=
  ⟨by norm_num, C10_value_tier_gaps.1 (199999/2) (Or.inl (by norm_num))⟩

end SafeTravels

namespace SafeTravels

/-! ## C7: monotonicity in a single weight-table multiplier -/

/-- The twelve factor multipliers `calculate_risk` resolves from the weight
tables, in the order they are multiplied. -/
def factorValues (c : RiskContext) : List ℚ :=
  [lookupD TIME_WEIGHTS c.time_of_day 1,
   lookupD DAY_WEIGHTS c.day_of_week 1,
   lookupD MONTH_WEIGHTS c.month 1,
   lookupD SEASON_WEIGHTS c.season 1,
   lookupD COMMODITY_WEIGHTS c.commodity 1,
   getValueMultiplier c.cargo_value,
   lookupD LOCATION_WEIGHTS c.location_type 1,
   getStateMultiplier c.state,
   lookupD WEATHER_WEIGHTS c.weather 1,
   lookupD EVENT_WEIGHTS c.event 1,
   lookupD TRAFFIC_WEIGHTS c.traffic 1,
   lookupD ACCIDENT_HISTORY_WEIGHTS c.accident_history 1]

/-- The clamped score as a function of the base rate and a vector of factor
multipliers: modifying one weight-table entry used by a context modifies
exactly one entry of this vector. -/
def scoreFromFactors (base : ℚ) (ms : List ℚ) : ℚ :=
  clampScore (base * ms.prod)

lemma clampScore_eq_one_of {s : ℚ} (h : s ≤ 1) : clampScore s = 1 := by
  unfold clampScore MIN_RISK_SCORE MAX_RISK_SCORE
  rw [min_eq_left (by linarith), max_eq_left h]

lemma clampScore_eq_ten_of {s : ℚ} (h : 10 ≤ s) : clampScore s = 10 := by
  unfold clampScore MIN_RISK_SCORE MAX_RISK_SCORE
  rw [min_eq_right h, max_eq_right (by norm_num)]

lemma clampScore_strict_gt {P Q : ℚ} (h1 : 1 < P) (h10 : P < 10) (hlt : P < Q) :
    clampScore P < clampScore Q := by
  rw [clampScore_id (le_of_lt h1) (le_of_lt h10)]
  unfold clampScore MIN_RISK_SCORE MAX_RISK_SCORE
  exact lt_of_lt_of_le (lt_min hlt h10) (le_max_right _ _)

lemma clampScore_strict_lt {P Q : ℚ} (h1 : 1 < P) (h10 : P < 10) (hlt : Q < P) :
    clampScore Q < clampScore P := by
  rw [clampScore_id (le_of_lt h1) (le_of_lt h10)]
  unfold clampScore MIN_RISK_SCORE MAX_RISK_SCORE
  exact max_lt h1 (lt_of_le_of_lt (min_le_left _ _) hlt)

lemma prod_set_of_get_one {ms : List ℚ} {j : ℕ} (hj : j < ms.length)
    (hget : ms.get ⟨j, hj⟩ = 1) (m' : ℚ) :
    (ms.set j m').prod = m' * ms.prod := by
  have hsplit : ms.prod = (ms.take j).prod * (ms.drop j).prod :=
    (List.prod_take_mul_prod_drop ms j).symm
  have hdrop : ms.drop j = ms.get ⟨j, hj⟩ :: ms.drop (j + 1) := by
    rw [List.get_eq_getElem]
    exact List.drop_eq_getElem_cons hj
  rw [List.prod_set, if_pos hj, hsplit, hdrop, List.prod_cons, hget]
  ring

lemma roundHalfEven_mono {q r : ℚ} (h : q ≤ r) : roundHalfEven q ≤ roundHalfEven r := by
  have hf : ⌊q⌋ ≤ ⌊r⌋ := Int.floor_le_floor h
  rcases lt_or_eq_of_le hf with hlt | heq
  · calc roundHalfEven q ≤ ⌊q⌋ + 1 := roundHalfEven_le_floor_add_one q
      _ ≤ ⌊r⌋ := by omega
      _ ≤ roundHalfEven r := floor_le_roundHalfEven r
  · have h1 : (⌊q⌋ : ℚ) ≤ q := Int.floor_le q
    have h2 : (⌊r⌋ : ℚ) ≤ r := Int.floor_le r
    unfold roundHalfEven
    rw [← heq]
    split_ifs <;> first | omega | (exfalso; linarith)

lemma round1_mono {q r : ℚ} (h : q ≤ r) : round1 q ≤ round1 r := by
  unfold round1
  have := roundHalfEven_mono (mul_le_mul_of_nonneg_left h (by norm_num : (0:ℚ) ≤ 10))
  have hle : ((roundHalfEven (10 * q) : ℤ) : ℚ) ≤ ((roundHalfEven (10 * r) : ℤ) : ℚ) := by
    exact_mod_cast this
  linarith

/-- C7 (amended): the clamped product score is the code's `clamp_score` of the
base rate times the product of the twelve resolved multipliers; replacing a
single multiplier equal to `1.0` by `m' > 1` strictly increases that clamped
score, and by `0 < m' < 1` strictly decreases it, provided the score is not
already clamped at a boundary.  The *returned* `risk_score`, being the
rounding of the clamped score to one decimal, is only weakly monotone. -/
theorem C7_single_multiplier_monotonicity :
    (∀ (b : ℚ) (c : RiskContext),
        clampScore (rawScore b c) = scoreFromFactors b (factorValues c)) ∧
    (∀ (base m' : ℚ) (ms : List ℚ) (j : ℕ) (hj : j < ms.length),
        0 < base → (∀ x ∈ ms, 0 < x) → ms.get ⟨j, hj⟩ = 1 →
        1 < scoreFromFactors base ms → scoreFromFactors base ms < 10 →
        ((1 < m' → scoreFromFactors base ms < scoreFromFactors base (ms.set j m')) ∧
         (0 < m' → m' < 1 →
            scoreFromFactors base (ms.set j m') < scoreFromFactors base ms))) ∧
    (∀ x y : ℚ, x ≤ y → round1 x ≤ round1 y) := by
  refine ⟨?_, ?_, fun x y h => round1_mono h⟩
  · intro b c
    unfold scoreFromFactors
    congr 1
    unfold rawScore factorValues
    dsimp only [factorsOf]
    simp only [List.prod_cons, List.prod_nil]
    ring
  · intro base m' ms j hj hbase hpos hget h1 h10
    have hprodpos : 0 < ms.prod := List.prod_pos hpos
    have hPpos : 0 < base * ms.prod := mul_pos hbase hprodpos
    have hint : 1 < base * ms.prod ∧ base * ms.prod < 10 := by
      constructor
      · by_contra hc
        push_neg at hc
        have := clampScore_eq_one_of hc
        unfold scoreFromFactors at h1
        rw [this] at h1
        exact absurd h1 (lt_irrefl 1)
      · by_contra hc
        push_neg at hc
        have := clampScore_eq_ten_of hc
        unfold scoreFromFactors at h10
        rw [this] at h10
        exact absurd h10 (lt_irrefl 10)
    have hclampP : clampScore (base * ms.prod) = base * ms.prod :=
      clampScore_id (le_of_lt hint.1) (le_of_lt hint.2)
    have hset : (ms.set j m').prod = m' * ms.prod := prod_set_of_get_one hj hget m'
    constructor
    · intro hm'
      have hgt : base * ms.prod < base * (ms.set j m').prod := by
        rw [hset]
        have := lt_mul_of_one_lt_left hprodpos hm'
        exact mul_lt_mul_of_pos_left this hbase
      exact clampScore_strict_gt hint.1 hint.2 hgt
    · intro hm0 hm1
      have hltP : base * (ms.set j m').prod < base * ms.prod := by
        rw [hset]
        have := mul_lt_of_lt_one_left hprodpos hm1
        exact mul_lt_mul_of_pos_left this hbase
      exact clampScore_strict_lt hint.1 hint.2 hltP

lemma factorValues_ctxNeutral :
    factorValues ctxNeutral = [1, 1, 1, 1, 1, 1, 1, 1, 1, 1, 1, 1] := by
  have ht : lookupD TIME_WEIGHTS "day" 1 = 1 := by simp [lookupD, TIME_WEIGHTS]
  have hd : lookupD DAY_WEIGHTS "monday" 1 = 1 := by simp [lookupD, DAY_WEIGHTS]
  have hm : lookupD MONTH_WEIGHTS "february" 1 = 1 := by simp [lookupD, MONTH_WEIGHTS]
  have hs : lookupD SEASON_WEIGHTS "normal" 1 = 1 := by simp [lookupD, SEASON_WEIGHTS]
  have hc : lookupD COMMODITY_WEIGHTS "general" 1 = 1 := by simp [lookupD, COMMODITY_WEIGHTS]
  have hl : lookupD LOCATION_WEIGHTS "other" 1 = 1 := by simp [lookupD, LOCATION_WEIGHTS]
  have hw : lookupD WEATHER_WEIGHTS "clear" 1 = 1 := by simp [lookupD, WEATHER_WEIGHTS]
  have he : lookupD EVENT_WEIGHTS "none" 1 = 1 := by simp [lookupD, EVENT_WEIGHTS]
  have htr : lookupD TRAFFIC_WEIGHTS "light" 1 = 1 := by simp [lookupD, TRAFFIC_WEIGHTS]
  have ha : lookupD ACCIDENT_HISTORY_WEIGHTS "low" 1 = 1 := by
    simp [lookupD, ACCIDENT_HISTORY_WEIGHTS]
  unfold factorValues
  dsimp only [ctxNeutral]
  rw [ht, hd, hm, hs, hc, getValueMultiplier_50000, hl, getStateMultiplier_empty,
    hw, he, htr, ha]

/-- C7 witness: with base `3` and the neutral context's multiplier vector
(twelve ones), raising the first multiplier from `1.0` to the night weight
`1.5` strictly increases the clamped score. -/
theorem C7_witness :
    (1:ℚ) < 3/2 ∧
      scoreFromFactors 3 (factorValues ctxNeutral) <
        scoreFromFactors 3 ((factorValues ctxNeutral).set 0 (3/2)) := by
  have hFV := factorValues_ctxNeutral
  have hj : 0 < (factorValues ctxNeutral).length := by rw [hFV]; norm_num
  have hpos : ∀ x ∈ factorValues ctxNeutral, 0 < x := by
    rw [hFV]
    intro x hx
    simp only [List.mem_cons, List.not_mem_nil, or_false] at hx
    rcases hx with rfl | rfl | rfl | rfl | rfl | rfl | rfl | rfl | rfl | rfl | rfl | rfl <;>
      norm_num
  have hget : (factorValues ctxNeutral).get ⟨0, hj⟩ = 1 := by
    simp [hFV]
  have hbase : (0:ℚ) < 3 := by norm_num
  have hscore : scoreFromFactors 3 (factorValues ctxNeutral) = 3 := by
    rw [scoreFromFactors, hFV]
    norm_num
    exact clampScore_id (by norm_num) (by norm_num)
  refine ⟨by norm_num, ?_⟩
  exact (C7_single_multiplier_monotonicity.2.1 3 (3/2) (factorValues ctxNeutral) 0 hj
    hbase hpos hget (by rw [hscore]; norm_num) (by rw [hscore]; norm_num)).1 (by norm_num)

end SafeTravels

namespace SafeTravels

/-- C7 counterexample: with base rate `3` and the neutral multiplier vector,
raising the first multiplier from `1.0` to `1.01` leaves the *returned*
(rounded) `risk_score` unchanged at `3.0`, although the score is strictly
inside `(1, 10)`: the claim's strict increase fails for the returned score. -/
theorem C7_counterexample :
    round1 (scoreFromFactors 3 ((factorValues ctxNeutral).set 0 (101/100))) =
      round1 (scoreFromFactors 3 (factorValues ctxNeutral)) ∧
    (1:ℚ) < 101/100 ∧
    1 < scoreFromFactors 3 (factorValues ctxNeutral) ∧
    scoreFromFactors 3 (factorValues ctxNeutral) < 10 ∧
    (calculateRisk 0 0 ctxNeutral (some 3)).risk_score =
      round1 (scoreFromFactors 3 (factorValues ctxNeutral)) := by
  have hFV := factorValues_ctxNeutral
  have hbase : scoreFromFactors 3 (factorValues ctxNeutral) = 3 := by
    rw [scoreFromFactors, hFV]
    norm_num
    exact clampScore_id (by norm_num) (by norm_num)
  have hmod : scoreFromFactors 3 ((factorValues ctxNeutral).set 0 (101/100)) = 303/100 := by
    rw [scoreFromFactors, hFV]
    show clampScore (3 * ((101:ℚ)/100 :: [1, 1, 1, 1, 1, 1, 1, 1, 1, 1, 1]).prod) = 303/100
    have : ((101:ℚ)/100 :: [1, 1, 1, 1, 1, 1, 1, 1, 1, 1, (1:ℚ)]).prod = 101/100 := by
      norm_num
    rw [this, show (3:ℚ) * (101/100) = 303/100 by norm_num]
    exact clampScore_id (by norm_num) (by norm_num)
  have hr3 : round1 3 = 3 := by
    rw [round1_eval_down (f := 30) (by norm_num) (by norm_num)]
    norm_num
  have hr303 : round1 (303/100) = 3 := by
    rw [round1_eval_down (f := 30) (by norm_num) (by norm_num)]
    norm_num
  refine ⟨?_, by norm_num, by rw [hbase]; norm_num, by rw [hbase]; norm_num, ?_⟩
  · rw [hbase, hmod, hr3, hr303]
  · show round1 (clampScore (rawScore 3 ctxNeutral)) = _
    rw [rawScore_ctxNeutral, hbase, clampScore_id (by norm_num) (by norm_num)]

end SafeTravels

namespace SafeTravels

/-! ## safe_stops.py -/

/-- `StopTier` enum. -/
inductive StopTier where
  | LEVEL_1
  | LEVEL_2
  | LEVEL_3
  | AVOID
  deriving DecidableEq, Repr

/-- Position in `tier_order = [LEVEL_1, LEVEL_2, LEVEL_3, AVOID]`, the
`tier_order.index` used for filtering in `find_nearby_stops`. -/
def tierIndex : StopTier → ℕ
  | .LEVEL_1 => 0
  | .LEVEL_2 => 1
  | .LEVEL_3 => 2
  | .AVOID => 3

/-- Python `sub in s` on strings (substring containment). -/
def pyIn (pat s : String) : Bool :=
  s.data.tails.any (fun t => pat.data.isPrefixOf t)

/-- Python `s.startswith(pre)`. -/
def pyStartsWith (s pre : String) : Bool :=
  pre.data.isPrefixOf s.data

/-- Python `int(q)` (truncation toward zero). -/
def pyInt (q : ℚ) : ℤ :=
  if q < 0 then -⌊-q⌋ else ⌊q⌋

/-- Python `min` on integers. -/
def pyMinI (a b : ℤ) : ℤ := if a ≤ b then a else b

/-- Python `max` on integers. -/
def pyMaxI (a b : ℤ) : ℤ := if b ≤ a then a else b

/-- Generic `dict.get` over an association list. -/
def lookupA {α : Type} (tbl : List (String × α)) (key : String) : Option α :=
  match tbl with
  | [] => none
  | p :: rest => if p.1 == key then some p.2 else lookupA rest key

-- Scoring constants from safe_stops.py
def SCORE_NO_THEFT_HISTORY : ℤ := 18
def SCORE_LOW_STATE_RISK : ℤ := 8
def SCORE_HIGHWAY_ACCESS : ℤ := 6
def SCORE_NEARBY_POLICE : ℤ := 3
def SCORE_MAJOR_BRAND : ℤ := 8
def SCORE_STAFFED_24H : ℤ := 7
def SCORE_HIGH_DRIVER_RATING : ℤ := 5
def PENALTY_POOR_LIGHTING : ℤ := -6
def PENALTY_NO_CCTV : ℤ := -3
def PENALTY_ISOLATED : ℤ := -5
def PENALTY_HIGH_CRIME_STATE : ℤ := -5
def TIER_LEVEL_1_MIN : ℤ := 85
def TIER_LEVEL_2_MIN : ℤ := 65
def TIER_LEVEL_3_MIN : ℤ := 45

/-- `MAJOR_BRANDS` from `score_stop`. -/
def MAJOR_BRANDS : List String :=
  ["Pilot", "Love\x27s", "Flying J", "TA", "Petro", "Sapp", "Buc-ee", "QuikTrip"]

/-- One record of `dot_truck_stops.json`, restricted to the keys `score_stop`
and `find_nearby_stops` read, with the `dict.get` defaults used there.
The JSON data files are not part of the source tree, so records are
universally quantified; hotspot risk scores are small integers (`risk_value`
in the code), modelled as `ℤ`. -/
structure StopData where
  id : ℕ := 0
  name : String := ""
  city : String := ""
  state : String := ""
  latitude : ℚ := 0
  longitude : ℚ := 0
  highway : String := ""
  amenities : List String := []
  security : String := "none"
  risk_score : ℤ := 5
  parking_spaces : ℤ := 0
  rating : ℚ := 0
  review_count : ℕ := 0
  deriving DecidableEq, Repr

/-- The data `safe_stops.py` loads from JSON at import time: FBI crime data
(`state → risk_level`), cargo-theft hotspots (`"ST-City" → risk_score`) and
state risk multipliers.  Passed as a parameter since the files are external. -/
structure SafeStopsData where
  crimeStates : List (String × String) := []
  cargoHotspots : List (String × ℤ) := []
  cargoMultipliers : List (String × ℚ) := []

/-- `_get_state_risk_level(state_code)`: default `"MODERATE"`. -/
def getStateRiskLevel (env : SafeStopsData) (state_code : String) : String :=
  (lookupA env.crimeStates state_code).getD "MODERATE"

/-- `tier` assignment block at the end of `score_stop` (cut points 85/65/45). -/
def tierOf (score : ℤ) : StopTier :=
  if score ≥ TIER_LEVEL_1_MIN then .LEVEL_1
  else if score ≥ TIER_LEVEL_2_MIN then .LEVEL_2
  else if score ≥ TIER_LEVEL_3_MIN then .LEVEL_3
  else .AVOID

/-- `score_stop(stop_data, current_hour=12)`. -/
def scoreStop (env : SafeStopsData) (stop_data : StopData) (current_hour : ℤ) :
    ℤ × StopTier :=
  let amenities := stop_data.amenities
  let security := stop_data.security
  let name := stop_data.name
  let state := stop_data.state
  let city := stop_data.city
  let is_major_brand := MAJOR_BRANDS.any (fun b => pyIn b name)
  -- Tier 1: physical security
  let s1 : ℤ := if amenities.contains "gated_parking" then 25
                else if is_major_brand then 5 else 0
  let s2 : ℤ := if amenities.contains "security_guards" then 20 else 0
  let s3 : ℤ := if amenities.contains "cctv" ∨ amenities.contains "cameras" then 15
                else if security = "high" then 5 else 0
  let s4 : ℤ := if amenities.contains "lighting_good" then 10
                else if is_major_brand then 3 else 0
  -- Tier 2: location and crime history
  let data_risk := stop_data.risk_score
  let s5 : ℤ := if data_risk ≤ 2 then SCORE_NO_THEFT_HISTORY
                else if data_risk ≤ 3 then pyInt ((SCORE_NO_THEFT_HISTORY : ℚ) * (8/10))
                else if data_risk ≤ 5 then pyInt ((SCORE_NO_THEFT_HISTORY : ℚ) * (5/10))
                else 0
  let state_risk := getStateRiskLevel env state
  let s6 : ℤ := if state_risk = "LOW" then SCORE_LOW_STATE_RISK
                else if state_risk = "MODERATE" then SCORE_LOW_STATE_RISK / 2
                else 0
  let s7 : ℤ := if pyStartsWith stop_data.highway "I-" then SCORE_HIGHWAY_ACCESS
                else if pyStartsWith stop_data.highway "US-" then SCORE_HIGHWAY_ACCESS / 2
                else 0
  let s8 : ℤ := if is_major_brand then SCORE_NEARBY_POLICE else 0
  -- Tier 3: operational
  let s9 : ℤ := if is_major_brand then SCORE_MAJOR_BRAND else 0
  let s10 : ℤ := if is_major_brand ∨ security = "high" then SCORE_STAFFED_24H else 0
  let s11 : ℤ := if is_major_brand then SCORE_HIGH_DRIVER_RATING else 0
  -- Cargo-theft hotspots
  let city_key := state ++ "-" ++ city
  let state_multiplier := (lookupA env.cargoMultipliers state).getD 1
  let s12 : ℤ := match lookupA env.cargoHotspots city_key with
    | some risk_val => -(risk_val * 3)
    | none => if state_multiplier > 6/5 then -5 else 0
  -- Penalties
  let p1 : ℤ := if security = "none" then PENALTY_NO_CCTV else 0
  let p2 : ℤ := if (security = "none" ∨ security = "low") ∧ pyIn "Rest Area" name
                then PENALTY_POOR_LIGHTING else 0
  let p3 : ℤ := if stop_data.parking_spaces < 30 ∧ ¬is_major_brand
                then PENALTY_ISOLATED else 0
  let p4 : ℤ := if state_risk = "CRITICAL" then PENALTY_HIGH_CRIME_STATE else 0
  -- Night adjustments
  let is_night := current_hour ≥ 22 ∨ current_hour < 6
  let n1 : ℤ := if is_night ∧ amenities.contains "security_guards" then 2 else 0
  let n2 : ℤ := if is_night ∧ security = "high" then 3 else 0
  let raw := s1 + s2 + s3 + s4 + s5 + s6 + s7 + s8 + s9 + s10 + s11 + s12
             + p1 + p2 + p3 + p4 + n1 + n2
  let score := pyMaxI 0 (pyMinI raw 100)
  (score, tierOf score)

end SafeTravels

namespace SafeTravels

/-- `SafeStop` dataclass (the fields populated by `find_nearby_stops` and
`_search_google_fallback`; `to_dict` presentation is not modelled). -/
structure SafeStop where
  stop_id : ℕ := 0
  name : String := ""
  city : String := ""
  state : String := ""
  latitude : ℚ := 0
  longitude : ℚ := 0
  highway : String := ""
  distance_miles : ℝ := 0
  security_score : ℤ := 0
  tier : StopTier := .LEVEL_3
  security_level : String := "unknown"
  has_fuel : Bool := false
  has_showers : Bool := false
  has_food : Bool := false
  has_guards : Bool := false
  has_gated_parking : Bool := false
  has_cctv : Bool := false
  parking_spaces : ℤ := 0
  area_risk_level : String := "unknown"
  available_spaces : Option ℤ := none
  realtime_status : String := "UNKNOWN"
  rating : ℚ := 0
  review_count : ℕ := 0
  photo_url : Option String := none

/-- One Google Places result, with the `dict.get` defaults the fallback uses. -/
structure GPlace where
  name : String := "Unknown Google Stop"
  lat : ℚ := 0
  lon : ℚ := 0
  rating : ℚ := 3
  user_ratings_total : ℕ := 0
  types : List String := []
  photoRef : Option String := none

/-- One answer of the real-time aggregator (`get_realtime_status`). -/
structure RTStatus where
  available_spaces : Option ℤ := none
  status : Option String := none

/-- The external collaborators of `find_nearby_stops`: the configured
Google Maps API key (`settings.google_maps_api_key`, empty string = not
configured/falsy), the parsed response of the Places request (`none` =
request failed, non-200 or raised — all swallowed), the real-time
aggregator (`none` = the per-stop fetch raised — swallowed), and Python's
string `hash` (process-dependent, hence a parameter). -/
structure ExtEnv where
  apiKey : String := ""
  googleResp : Option (List GPlace) := none
  rt : ℕ → String → Option RTStatus := fun _ _ => none
  hashName : String → ℕ := fun _ => 0

/-- `math.radians` over a rational coordinate. -/
noncomputable def radiansR (deg : ℚ) : ℝ := (deg : ℝ) * Real.pi / 180

/-- `_haversine_distance` (identical to `_calculate_distance` of
`route_scanner.py`), Earth radius 3958.8 miles. -/
noncomputable def haversineDistance (p1 p2 : ℚ × ℚ) : ℝ :=
  let lat1 := radiansR p1.1
  let lon1 := radiansR p1.2
  let lat2 := radiansR p2.1
  let lon2 := radiansR p2.2
  let dlat := lat2 - lat1
  let dlon := lon2 - lon1
  let a := Real.sin (dlat/2)^2 + Real.cos lat1 * Real.cos lat2 * Real.sin (dlon/2)^2
  let c := 2 * Real.arcsin (Real.sqrt a)
  3958.8 * c

/-- `_search_google_fallback(lat, lon, radius_miles)`: builds `SafeStop`s
from the Places response; tiers are assigned only from the external rating
(Level 2 if rating > 4.0, else Level 3) and are *not* filtered by
`min_tier`.  An unset key, a failed request or an exception yield `[]`. -/
noncomputable def searchGoogleFallback (ext : ExtEnv) (lat lon : ℚ)
    (_radius_miles : ℝ) : List SafeStop :=
  if ext.apiKey = "" then []
  else
    match ext.googleResp with
    | none => []
    | some places =>
      places.map (fun place =>
        let name := place.name
        let dist : ℝ :=
          Real.sqrt (((place.lat : ℝ) - (lat : ℝ))^2 + ((place.lon : ℝ) - (lon : ℝ))^2) * 69
        let amenities : List String :=
          (if place.types.contains "gas_station" then ["fuel"] else []) ++
          (if place.types.contains "restaurant" ∨ place.types.contains "food"
           then ["food"] else [])
        { stop_id := ext.hashName name % 100000
          name := "[Google] " ++ name
          city := "Unknown"
          state := "Unknown"
          latitude := place.lat
          longitude := place.lon
          highway := "Nearby"
          distance_miles := dist
          security_score := pyInt (place.rating * 15) + 20
          tier := if place.rating > (4:ℚ) then StopTier.LEVEL_2 else StopTier.LEVEL_3
          security_level := "medium"
          has_fuel := amenities.contains "fuel"
          has_showers := false
          has_guards := false
          has_gated_parking := false
          parking_spaces := 0
          area_risk_level := "unknown"
          realtime_status := "UNKNOWN"
          rating := place.rating
          review_count := place.user_ratings_total
          photo_url := place.photoRef.map (fun ref =>
            "https://maps.googleapis.com/maps/api/place/photo?maxwidth=400&photoreference="
              ++ ref ++ "&key=" ++ ext.apiKey) })

open Classical

/-- Builds the `SafeStop` for one catalog record inside `find_nearby_stops`. -/
def buildSafeStop (env : SafeStopsData) (d : StopData) (distance : ℝ)
    (score : ℤ) (tier : StopTier) (has_fuel : Bool) : SafeStop :=
  { stop_id := d.id
    name := if d.name = "" then "Unknown" else d.name
    city := d.city
    state := d.state
    latitude := d.latitude
    longitude := d.longitude
    highway := d.highway
    distance_miles := distance
    security_score := score
    tier := tier
    security_level := d.security
    has_fuel := has_fuel
    has_showers := d.amenities.contains "showers"
    has_food := d.amenities.contains "food" ∨ d.amenities.contains "restaurant"
    has_guards := d.amenities.contains "security_guards"
    has_gated_parking := d.amenities.contains "gated_parking"
    has_cctv := d.amenities.contains "cctv" ∨ d.amenities.contains "cameras"
    parking_spaces := d.parking_spaces
    area_risk_level := getStateRiskLevel env d.state
    rating := d.rating
    review_count := d.review_count }

/-- The catalog loop of `find_nearby_stops`: radius filter, score, tier
filter against `tier_order`, fuel filter.  `score_stop` is called with its
default `current_hour = 12`, exactly as in the source. -/
noncomputable def catalogResults (env : SafeStopsData) (lat lon : ℚ)
    (radius_miles : ℝ) (min_tier : StopTier) (require_fuel : Bool) :
    List StopData → List SafeStop
  | [] => []
  | d :: rest =>
    let tail := catalogResults env lat lon radius_miles min_tier require_fuel rest
    let distance := haversineDistance (lat, lon) (d.latitude, d.longitude)
    if distance > radius_miles then tail
    else
      let st := scoreStop env d 12
      if tierIndex st.2 > tierIndex min_tier then tail
      else
        let has_fuel := d.amenities.contains "fuel"
        if require_fuel ∧ ¬has_fuel then tail
        else buildSafeStop env d distance st.1 st.2 has_fuel :: tail

/-- The per-stop real-time enrichment at the end of `find_nearby_stops`;
a raised exception (`none`) leaves the stop unchanged. -/
def enrichStop (ext : ExtEnv) (s : SafeStop) : SafeStop :=
  match ext.rt s.stop_id s.state with
  | some rtd =>
    { s with available_spaces := rtd.available_spaces
             realtime_status := rtd.status.getD "UNKNOWN" }
  | none => s

/-- `find_nearby_stops(lat, lon, radius_miles, min_tier, require_fuel,
limit)`: catalog scan, Google fallback when fewer than 3 local results and
a key is configured, stable sort by distance, truncation to `limit`, then
real-time enrichment of the truncated list. -/
noncomputable def findNearbyStops (env : SafeStopsData) (ext : ExtEnv)
    (catalog : List StopData) (lat lon : ℚ) (radius_miles : ℝ)
    (min_tier : StopTier) (require_fuel : Bool) (limit : ℕ) : List SafeStop :=
  let results := catalogResults env lat lon radius_miles min_tier require_fuel catalog
  let results2 :=
    if results.length < 3 ∧ ext.apiKey ≠ "" then
      results ++ searchGoogleFallback ext lat lon radius_miles
    else results
  let sorted := results2.mergeSort (fun a b => decide (a.distance_miles ≤ b.distance_miles))
  (sorted.take limit).map (enrichStop ext)

end SafeTravels

namespace SafeTravels

/-! ## C9: score_stop clamping and tier purity -/

lemma pyClamp_bounds (r : ℤ) : 0 ≤ pyMaxI 0 (pyMinI r 100) ∧ pyMaxI 0 (pyMinI r 100) ≤ 100 := by
  unfold pyMaxI pyMinI
  split_ifs <;> omega

lemma scoreStop_shape (env : SafeStopsData) (d : StopData) (h : ℤ) :
    ∃ r : ℤ, scoreStop env d h =
      (pyMaxI 0 (pyMinI r 100), tierOf (pyMaxI 0 (pyMinI r 100))) :=
  ⟨_, rfl⟩

/-- Crime/hotspot data and four synthetic stop records engineered to score
exactly 85, 65, 45 and 44 (the tier boundary values). -/
def envC9 : SafeStopsData :=
  { crimeStates := [("AA", "LOW"), ("BB", "HIGH"), ("CC", "MODERATE")]
    cargoHotspots := [("AA-Dallas", 8), ("BB-Dallas", 12), ("CC-Dallas", 20), ("BB-Waco", 19)]
    cargoMultipliers := [] }

def recA : StopData :=
  { name := "Alpha", city := "Dallas", state := "AA", highway := "I-35",
    amenities := ["gated_parking", "security_guards", "cctv", "lighting_good"],
    security := "high", risk_score := 2, parking_spaces := 30 }

def recB : StopData :=
  { recA with name := "Beta", state := "BB", highway := "I-20" }

def recC : StopData :=
  { recA with name := "Gamma", state := "CC" }

def recD : StopData :=
  { recA with name := "Delta", state := "BB", city := "Waco" }

/-- C9: for every stop record, external data and hour, `score_stop` returns
a score clamped to `[0, 100]` and a tier computed from that score by the
fixed cut points 85/65/45; concrete records scoring exactly 85, 65, 45, 44
map to Level 1, Level 2, Level 3, Avoid respectively. -/
theorem C9_score_stop_clamped_tier_pure :
    (∀ (env : SafeStopsData) (d : StopData) (h : ℤ),
        (0 ≤ (scoreStop env d h).1 ∧ (scoreStop env d h).1 ≤ 100) ∧
        (scoreStop env d h).2 = tierOf (scoreStop env d h).1) ∧
    tierOf 85 = StopTier.LEVEL_1 ∧ tierOf 65 = StopTier.LEVEL_2 ∧
    tierOf 45 = StopTier.LEVEL_3 ∧ tierOf 44 = StopTier.AVOID ∧
    scoreStop envC9 recA 12 = (85, StopTier.LEVEL_1) ∧
    scoreStop envC9 recB 12 = (65, StopTier.LEVEL_2) ∧
    scoreStop envC9 recC 12 = (45, StopTier.LEVEL_3) ∧
    scoreStop envC9 recD 12 = (44, StopTier.AVOID) := by
  refine ⟨?_, by decide, by decide, by decide, by decide,
    by decide, by decide, by decide, by decide⟩
  intro env d h
  obtain ⟨r, hr⟩ := scoreStop_shape env d h
  rw [hr]
  exact ⟨pyClamp_bounds r, rfl⟩

/-- C9 witness: the universally quantified part applied to the concrete
record `recA` at hour 12. -/
theorem C9_witness :
    (0 ≤ (scoreStop envC9 recA 12).1 ∧ (scoreStop envC9 recA 12).1 ≤ 100) ∧
      (scoreStop envC9 recA 12).2 = tierOf (scoreStop envC9 recA 12).1 :=
  C9_score_stop_clamped_tier_pure.1 envC9 recA 12

end SafeTravels

namespace SafeTravels

/-! ## C4: tier filtering in find_nearby_stops -/

lemma enrichStop_tier (ext : ExtEnv) (s : SafeStop) : (enrichStop ext s).tier = s.tier := by
  unfold enrichStop
  split <;> rfl

lemma catalogResults_tier_le (env : SafeStopsData) (lat lon : ℚ) (radius : ℝ)
    (mt : StopTier) (rf : Bool) (cat : List StopData) :
    ∀ s ∈ catalogResults env lat lon radius mt rf cat,
      tierIndex s.tier ≤ tierIndex mt := by
  induction cat with
  | nil =>
    intro s hs
    simp [catalogResults] at hs
  | cons d rest ih =>
    intro s hs
    simp only [catalogResults] at hs
    split_ifs at hs with h1 h2 h3
    · exact ih s hs
    · exact ih s hs
    · exact ih s hs
    · rcases List.mem_cons.mp hs with rfl | hmem
      · exact Nat.le_of_not_lt h2
      · exact ih s hmem

lemma googleFallback_tier (ext : ExtEnv) (lat lon : ℚ) (radius : ℝ) :
    ∀ s ∈ searchGoogleFallback ext lat lon radius,
      s.tier = StopTier.LEVEL_2 ∨ s.tier = StopTier.LEVEL_3 := by
  intro s hs
  unfold searchGoogleFallback at hs
  split_ifs at hs with h1
  · simp at hs
  · cases hg : ext.googleResp with
    | none => rw [hg] at hs; simp at hs
    | some places =>
      rw [hg] at hs
      dsimp only at hs
      obtain ⟨place, hp, rfl⟩ := List.mem_map.mp hs
      dsimp only
      split_ifs with h
      · exact Or.inl rfl
      · exact Or.inr rfl

/-- C4 (amended): when the Google fallback is not configured (no API key),
every stop returned by `find_nearby_stops` has a tier not strictly below
`min_tier` in the order Level 1 > Level 2 > Level 3 > Avoid; the fallback
path, however, assigns its stops tier Level 2 or Level 3 purely from the
external rating and never filters them by `min_tier`, so fallback results
can fall strictly below `min_tier` (e.g. whenever `min_tier` is Level 1). -/
theorem C4_tier_filter :
    (∀ (env : SafeStopsData) (ext : ExtEnv) (catalog : List StopData)
        (lat lon : ℚ) (radius : ℝ) (min_tier : StopTier) (require_fuel : Bool)
        (limit : ℕ),
        ext.apiKey = "" →
        ∀ s ∈ findNearbyStops env ext catalog lat lon radius min_tier require_fuel limit,
          tierIndex s.tier ≤ tierIndex min_tier) ∧
    (∀ (ext : ExtEnv) (lat lon : ℚ) (radius : ℝ),
        ∀ s ∈ searchGoogleFallback ext lat lon radius,
          s.tier = StopTier.LEVEL_2 ∨ s.tier = StopTier.LEVEL_3) := by
  constructor
  · intro env ext catalog lat lon radius min_tier require_fuel limit hkey s hs
    simp only [findNearbyStops, hkey, ne_eq, not_true_eq_false, and_false,
      if_false] at hs
    obtain ⟨t, ht, rfl⟩ := List.mem_map.mp hs
    rw [enrichStop_tier]
    have ht2 := List.mem_of_mem_take ht
    have ht3 := (List.mergeSort_perm
      (catalogResults env lat lon radius min_tier require_fuel catalog)
      (fun a b => decide (a.distance_miles ≤ b.distance_miles))).mem_iff.mp ht2
    exact catalogResults_tier_le env lat lon radius min_tier require_fuel catalog t ht3
  · exact googleFallback_tier

end SafeTravels

namespace SafeTravels

lemma haversine_self (p : ℚ × ℚ) : haversineDistance p p = 0 := by
  simp [haversineDistance]

/-- External environment for the C4 counterexample: a configured API key and
one Google Places result (default rating `3.0`) at the query point. -/
def extC4 : ExtEnv := { apiKey := "k", googleResp := some [{ lat := 0, lon := 0 }] }

/-- C4 counterexample: with an empty catalog (so the fallback activates), a
configured key, one Google result rated `3.0`, and `min_tier = Level 1`,
`find_nearby_stops` returns exactly one stop whose tier (Level 3) is
strictly below `min_tier` in the fixed ordering. -/
theorem C4_counterexample :
    ((findNearbyStops {} extC4 [] 0 0 50 StopTier.LEVEL_1 false 10).headD {}).tier
        = StopTier.LEVEL_3 ∧
    (findNearbyStops {} extC4 [] 0 0 50 StopTier.LEVEL_1 false 10).length = 1 ∧
    tierIndex StopTier.LEVEL_1 < tierIndex StopTier.LEVEL_3 := by
  obtain ⟨g0, hg, hgt⟩ :
      ∃ g, searchGoogleFallback extC4 0 0 50 = [g] ∧ g.tier = StopTier.LEVEL_3 :=
    ⟨_, rfl, rfl⟩
  have step : findNearbyStops {} extC4 [] 0 0 50 StopTier.LEVEL_1 false 10 = [g0] := by
    simp only [findNearbyStops]
    rw [show catalogResults {} 0 0 50 StopTier.LEVEL_1 false [] = [] from rfl]
    rw [if_pos (⟨by norm_num, by decide⟩ :
      ([] : List SafeStop).length < 3 ∧ extC4.apiKey ≠ "")]
    rw [hg, List.nil_append]
    rw [List.perm_singleton.mp (List.mergeSort_perm [g0] _)]
    rfl
  rw [step]
  exact ⟨hgt, rfl, by decide⟩

/-- The catalog stop of the C4 witness, as built by `find_nearby_stops` for
the record `recA` queried from its own coordinates. -/
noncomputable def stopA : SafeStop :=
  buildSafeStop envC9 recA (haversineDistance (0, 0) (recA.latitude, recA.longitude))
    85 StopTier.LEVEL_1 false

/-- C4 witness: the no-fallback half of the theorem applied to a concrete
one-stop catalog; the returned stop's tier satisfies the filter bound. -/
theorem C4_witness : tierIndex stopA.tier ≤ tierIndex StopTier.LEVEL_3 := by
  have hd : haversineDistance ((0:ℚ), (0:ℚ)) (recA.latitude, recA.longitude) = 0 :=
    haversine_self ((0:ℚ), (0:ℚ))
  have hcat : catalogResults envC9 0 0 50 StopTier.LEVEL_3 false [recA] = [stopA] := by
    simp only [catalogResults]
    rw [if_neg (by rw [hd]; norm_num :
      ¬(haversineDistance ((0:ℚ), (0:ℚ)) (recA.latitude, recA.longitude) > (50:ℝ)))]
    rw [show scoreStop envC9 recA 12 = (85, StopTier.LEVEL_1) from by decide]
    rw [if_neg (by decide : ¬(tierIndex (85, StopTier.LEVEL_1).2 > tierIndex StopTier.LEVEL_3))]
    rw [if_neg (by decide : ¬(false = true ∧ ¬recA.amenities.contains "fuel" = true))]
    rfl
  have heval : findNearbyStops envC9 {} [recA] 0 0 50 StopTier.LEVEL_3 false 10 = [stopA] := by
    simp only [findNearbyStops]
    rw [hcat]
    rw [if_neg (by simp : ¬([stopA].length < 3 ∧ ({} : ExtEnv).apiKey ≠ ""))]
    rw [List.perm_singleton.mp (List.mergeSort_perm [stopA] _)]
    rfl
  exact C4_tier_filter.1 envC9 {} [recA] 0 0 50 StopTier.LEVEL_3 false 10 rfl stopA
    (by rw [heval]; exact List.mem_singleton_self _)

end SafeTravels

namespace SafeTravels

/-! ## route_scanner.py -/

open Classical

def RED_ZONE_THRESHOLD : ℚ := 7
def YELLOW_ZONE_THRESHOLD : ℚ := 5
def MAX_SEGMENTS : ℕ := 100

/-- Python `int(x)` on a real (truncation toward zero). -/
noncomputable def pyIntR (x : ℝ) : ℤ :=
  if x < 0 then -⌊-x⌋ else ⌊x⌋

/-- `RouteSegment` dataclass (the `to_dict` presentation is not modelled). -/
structure RouteSegment where
  segment_id : ℕ := 0
  latitude : ℚ := 0
  longitude : ℚ := 0
  mile_marker : ℝ := 0
  risk_score : ℚ := 0
  risk_level : String := ""
  zone_type : String := ""
  warnings : List String := []

/-- `RedZone` dataclass.  The `description` and `recommended_action` strings
interpolate mile numbers (pure presentation) and `nearby_safe_stops` is the
constant `[]`; they are not modelled. -/
structure RedZone where
  start_mile : ℝ := 0
  end_mile : ℝ := 0
  peak_risk : ℚ := 0
  center_lat : ℚ := 0
  center_lon : ℚ := 0

/-- `_interpolate_route(origin, destination, interval_miles)`. -/
noncomputable def interpolateRoute (origin destination : ℚ × ℚ)
    (interval_miles : ℝ) : List (ℚ × ℚ × ℝ) :=
  let total_distance := haversineDistance origin destination
  let num_points : ℤ := max 2 (pyIntR (total_distance / interval_miles) + 1)
  (List.range num_points.toNat).map (fun i =>
    let fraction : ℚ :=
      if num_points > 1 then (i : ℚ) / ((num_points.toNat : ℚ) - 1) else 0
    (origin.1 + fraction * (destination.1 - origin.1),
     origin.2 + fraction * (destination.2 - origin.2),
     (fraction : ℝ) * total_distance))

/-- `STATE_BOUNDS` of `_get_state_from_coords`:
`(state, lat_min, lat_max, lon_min, lon_max)`. -/
def STATE_BOUNDS : List (String × ℚ × ℚ × ℚ × ℚ) :=
  [("CA", 325/10, 42, -1245/10, -114),
   ("TX", 258/10, 365/10, -1066/10, -935/10),
   ("FL", 245/10, 31, -876/10, -80),
   ("IL", 369/10, 425/10, -915/10, -87),
   ("GA", 303/10, 35, -856/10, -808/10),
   ("AZ", 313/10, 37, -1148/10, -109),
   ("NM", 313/10, 37, -109, -103),
   ("OK", 336/10, 37, -103, -944/10)]

/-- Loop body of `_get_state_from_coords`: first matching box wins. -/
def stateScan (lat lon : ℚ) : List (String × ℚ × ℚ × ℚ × ℚ) → String
  | [] => ""
  | b :: rest =>
    if b.2.1 ≤ lat ∧ lat ≤ b.2.2.1 ∧ b.2.2.2.1 ≤ lon ∧ lon ≤ b.2.2.2.2 then b.1
    else stateScan lat lon rest

/-- `_get_state_from_coords(lat, lon)`: empty string when no box matches. -/
def getStateFromCoords (lat lon : ℚ) : String :=
  stateScan lat lon STATE_BOUNDS

/-- The per-sample loop of `scan_route` (STEP 4): resolves the state, writes
it into the context (`context.state = state` — this mutation is modelled by
threading the context), scores the point, classifies the zone and builds the
segment.  Returns the segments and the final state of the context. -/
def scanSegments : RiskContext → List (ℚ × ℚ × ℝ) → ℕ →
    List RouteSegment × RiskContext
  | c, [], _ => ([], c)
  | c, p :: rest, idx =>
    let state := getStateFromCoords p.1 p.2.1
    let c2 := { c with state := state }
    let assessment := calculateRisk p.1 p.2.1 c2 none
    let zone_type :=
      if assessment.risk_score ≥ RED_ZONE_THRESHOLD then "red"
      else if assessment.risk_score ≥ YELLOW_ZONE_THRESHOLD then "yellow"
      else "green"
    let seg : RouteSegment :=
      { segment_id := idx
        latitude := p.1
        longitude := p.2.1
        mile_marker := p.2.2
        risk_score := assessment.risk_score
        risk_level := assessment.risk_level
        zone_type := zone_type
        warnings := assessment.warnings.take 2 }
    let res := scanSegments c2 rest (idx + 1)
    (seg :: res.1, res.2)

/-- `_create_zone(segments, zone_type)` (assumes a nonempty group, as in the
source, where `segments[0]`, `segments[-1]` and `max(...)` would raise on an
empty list; defaults stand in for the unreachable empty case). -/
def createZone (segments : List RouteSegment) (_zone_type : String) : RedZone :=
  { start_mile := (segments.headD {}).mile_marker
    end_mile := (segments.getLastD {}).mile_marker
    peak_risk := ((segments.map (fun s => s.risk_score)).max?).getD 0
    center_lat := (segments.getD (segments.length / 2) {}).latitude
    center_lon := (segments.getD (segments.length / 2) {}).longitude }

/-- Loop body of `_identify_zones`. -/
def identifyZonesStep (t : String) (acc : List RedZone × List RouteSegment)
    (seg : RouteSegment) : List RedZone × List RouteSegment :=
  if seg.zone_type = t then (acc.1, acc.2 ++ [seg])
  else if acc.2.isEmpty then acc
  else (acc.1 ++ [createZone acc.2 t], [])

/-- `_identify_zones(segments, zone_type)`: groups maximal runs of
consecutive segments of the requested type, closing the trailing run. -/
def identifyZones (segments : List RouteSegment) (t : String) : List RedZone :=
  let r := segments.foldl (identifyZonesStep t) ([], [])
  if r.2.isEmpty then r.1 else r.1 ++ [createZone r.2 t]

/-- `get_route_length_multiplier` applied to a real mileage (first matching
range wins, default `1.0`). -/
noncomputable def tierLookupR (tiers : List (ℚ × Option ℚ × ℚ)) (v : ℝ) : ℚ :=
  match tiers with
  | [] => 1
  | (lo, hi, m) :: rest =>
    if ((lo : ℝ) ≤ v ∧ match hi with | some h => v ≤ (h : ℝ) | none => True) then m
    else tierLookupR rest v

noncomputable def getRouteLengthMultiplier (miles : ℝ) : ℚ :=
  tierLookupR ROUTE_LENGTH_TIERS miles

/-- Round half to even on a real (Python `round(x, 1)` for the real-valued
`total_miles`). -/
noncomputable def roundHalfEvenR (x : ℝ) : ℤ :=
  if x - ⌊x⌋ < 1/2 then ⌊x⌋
  else if 1/2 < x - ⌊x⌋ then ⌊x⌋ + 1
  else if 2 ∣ ⌊x⌋ then ⌊x⌋ else ⌊x⌋ + 1

noncomputable def round1R (x : ℝ) : ℝ :=
  (roundHalfEvenR (10 * x) : ℝ) / 10

/-- Weight of a segment in the overall average (red counts double). -/
def segWeight (s : RouteSegment) : ℚ :=
  if s.zone_type = "red" then 2 else 1

/-- `_generate_route_recommendations`. -/
def generateRouteRecommendations (overall_risk : ℚ) (red_zones : List RedZone)
    (yellow_zones : List RedZone) (total_miles_gt_1000 total_miles_gt_500 : Bool) :
    List String :=
  (if overall_risk ≥ 8 then
    ["⚠️ CRITICAL ROUTE: Consider alternative routing or additional security."]
   else if overall_risk ≥ 6 then
    ["⚠️ HIGH RISK ROUTE: Plan stops carefully and maintain communication."]
   else []) ++
  (if red_zones.length > 0 then
    ["🔴 " ++ toString red_zones.length ++ " RED ZONE(S) detected. Avoid stopping in these areas."]
   else []) ++
  (if yellow_zones.length > 3 then
    ["🟡 Multiple caution zones. Stay alert throughout the route."]
   else []) ++
  (if total_miles_gt_1000 then
    ["📏 Long haul (1000+ miles). Plan multiple secured rest stops."]
   else if total_miles_gt_500 then
    ["📏 Regional haul. Plan at least one secured rest stop."]
   else []) ++
  ["✅ Keep dispatch informed of your location and any unusual activity."]

/-- `RouteAnalysis` dataclass (`analyzed_at`, a wall-clock timestamp, is not
modelled). -/
structure RouteAnalysis where
  origin : ℚ × ℚ
  destination : ℚ × ℚ
  total_miles : ℝ
  overall_risk : ℚ
  overall_level : String
  segments : List RouteSegment
  red_zones : List RedZone
  yellow_zones : List RedZone
  recommendations : List String

/-- `scan_route(origin, destination, context, sample_interval)`.  The
`context=None` branch builds a context from the wall clock and is outside
the model; the caller-supplied context is threaded explicitly, and the
function returns its final state alongside the analysis (the Python
function mutates the caller's object instead). -/
noncomputable def scanRoute (origin destination : ℚ × ℚ) (c : RiskContext)
    (sample_interval : ℝ) : RouteAnalysis × RiskContext :=
  let total_miles := haversineDistance origin destination
  let sample_points0 := interpolateRoute origin destination sample_interval
  let sample_points :=
    if sample_points0.length > MAX_SEGMENTS then sample_points0.take MAX_SEGMENTS
    else sample_points0
  let res := scanSegments c sample_points 1
  let segments := res.1
  let red_zones := identifyZones segments "red"
  let yellow_zones := identifyZones segments "yellow"
  let overall_risk0 : ℚ :=
    if segments.isEmpty then 5
    else
      round1 ((segments.map (fun s => s.risk_score * segWeight s)).sum /
        (segments.map segWeight).sum)
  let length_multiplier := getRouteLengthMultiplier total_miles
  let overall_risk1 : ℚ := min (overall_risk0 * length_multiplier) 10
  let overall_risk := round1 overall_risk1
  let overall_level :=
    if overall_risk ≤ 3 then "low"
    else if overall_risk ≤ 5 then "moderate"
    else if overall_risk ≤ 7 then "high"
    else "critical"
  let recommendations := generateRouteRecommendations overall_risk red_zones
    yellow_zones (decide (total_miles > 1000)) (decide (total_miles > 500))
  ({ origin := origin
     destination := destination
     total_miles := round1R total_miles
     overall_risk := overall_risk
     overall_level := overall_level
     segments := segments
     red_zones := red_zones
     yellow_zones := yellow_zones
     recommendations := recommendations }, res.2)

end SafeTravels

namespace SafeTravels

/-! ## C3: zero-length route -/

lemma scanSegments_length (pts : List (ℚ × ℚ × ℝ)) :
    ∀ (c : RiskContext) (idx : ℕ), (scanSegments c pts idx).1.length = pts.length := by
  induction pts with
  | nil => intro c idx; rfl
  | cons p rest ih =>
    intro c idx
    show ((scanSegments { c with state := getStateFromCoords p.1 p.2.1 } rest (idx+1)).1.length) + 1
      = rest.length + 1
    rw [ih]

lemma interpolate_self_length (o : ℚ × ℚ) : (interpolateRoute o o 20).length = 2 := by
  simp only [interpolateRoute, List.length_map, List.length_range]
  rw [haversine_self]
  have hz : pyIntR ((0:ℝ) / 20) = 0 := by
    norm_num [pyIntR]
  rw [hz]
  rw [max_eq_left (by norm_num : (0:ℤ) + 1 ≤ 2)]
  rfl

lemma interpolate_self_cap (o : ℚ × ℚ) :
    (if (interpolateRoute o o 20).length > MAX_SEGMENTS
      then (interpolateRoute o o 20).take MAX_SEGMENTS
      else interpolateRoute o o 20) = interpolateRoute o o 20 := by
  rw [if_neg]
  rw [interpolate_self_length]
  norm_num [MAX_SEGMENTS]

lemma scanRoute_self_segments (o : ℚ × ℚ) (c : RiskContext) :
    ((scanRoute o o c 20).1).segments.length = 2 := by
  calc ((scanRoute o o c 20).1).segments.length
      = (scanSegments c (if (interpolateRoute o o 20).length > MAX_SEGMENTS
          then (interpolateRoute o o 20).take MAX_SEGMENTS
          else interpolateRoute o o 20) 1).1.length := rfl
    _ = 2 := by rw [interpolate_self_cap, scanSegments_length, interpolate_self_length]

/-- C3 (amended): `scan_route(origin, origin)` does not divide by zero and
returns a `RouteAnalysis` with exactly *2* segments (both at the origin):
`_interpolate_route` computes `num_points = max(2, int(0/interval)+1) = 2`. -/
theorem C3_zero_length_route (o : ℚ × ℚ) (c : RiskContext) :
    ((scanRoute o o c 20).1).segments.length = 2 :=
  scanRoute_self_segments o c

def dallasLat : ℚ := 327767/10000
def dallasLon : ℚ := -967970/10000

/-- C3 counterexample: a zero-length route at Dallas yields 2 segments, not
1 as claimed. -/
theorem C3_counterexample :
    ((scanRoute (dallasLat, dallasLon) (dallasLat, dallasLon) {} 20).1).segments.length ≠ 1 := by
  rw [scanRoute_self_segments]
  norm_num

/-! ## C6: scan_route mutates the caller's context -/

lemma scanSegments_ctx (pts : List (ℚ × ℚ × ℝ)) :
    ∀ (c : RiskContext) (idx : ℕ),
      (scanSegments c pts idx).2 =
        { c with state := (scanSegments c pts idx).2.state } := by
  induction pts with
  | nil => intro c idx; rfl
  | cons p rest ih =>
    intro c idx
    calc (scanSegments c (p :: rest) idx).2
        = (scanSegments { c with state := getStateFromCoords p.1 p.2.1 } rest (idx+1)).2 := rfl
      _ = { { c with state := getStateFromCoords p.1 p.2.1 } with
            state := (scanSegments { c with state := getStateFromCoords p.1 p.2.1 }
              rest (idx+1)).2.state } := ih _ (idx+1)
      _ = { c with state := (scanSegments c (p :: rest) idx).2.state } := rfl

/-- C6 (amended): `scan_route` mutates exactly the `state` field of the
caller's context (it assigns the resolved state of each sample point before
scoring it); every other field of the final context equals the caller's. -/
theorem C6_context_mutation (o d : ℚ × ℚ) (c : RiskContext) (interval : ℝ) :
    (scanRoute o d c interval).2 =
      { c with state := (scanRoute o d c interval).2.state } :=
  scanSegments_ctx _ c 1

lemma scanSegments_state_const (pts : List (ℚ × ℚ × ℝ)) :
    ∀ (c : RiskContext) (idx : ℕ) (s : String), pts ≠ [] →
      (∀ p ∈ pts, getStateFromCoords p.1 p.2.1 = s) →
      (scanSegments c pts idx).2.state = s := by
  induction pts with
  | nil => intro c idx s h _; exact absurd rfl h
  | cons p rest ih =>
    intro c idx s _ hall
    by_cases hr : rest = []
    · subst hr
      show ({ c with state := getStateFromCoords p.1 p.2.1 } : RiskContext).state = s
      exact hall p (by simp)
    · show (scanSegments { c with state := getStateFromCoords p.1 p.2.1 } rest (idx+1)).2.state = s
      exact ih _ (idx+1) s hr (fun q hq => hall q (List.mem_cons_of_mem p hq))

/-- The caller's context of the C6 counterexample: `state = "FL"`. -/
def ctxFL : RiskContext := { state := "FL" }

/-- C6 counterexample: after `scan_route` on a zero-length route at Dallas,
the caller's context is changed — its `state` has been overwritten with the
resolved bounding-box state `"TX"` of the sampled points. -/
theorem C6_counterexample :
    (scanRoute (dallasLat, dallasLon) (dallasLat, dallasLon) ctxFL 20).2 ≠ ctxFL ∧
    ((scanRoute (dallasLat, dallasLon) (dallasLat, dallasLon) ctxFL 20).2).state = "TX" ∧
    ctxFL.state = "FL" := by
  have hne : interpolateRoute (dallasLat, dallasLon) (dallasLat, dallasLon) 20 ≠ [] := by
    intro h
    have := interpolate_self_length (dallasLat, dallasLon)
    rw [h] at this
    simp at this
  have hall : ∀ p ∈ interpolateRoute (dallasLat, dallasLon) (dallasLat, dallasLon) 20,
      getStateFromCoords p.1 p.2.1 = "TX" := by
    intro p hp
    simp only [interpolateRoute] at hp
    obtain ⟨i, hi, rfl⟩ := List.mem_map.mp hp
    show getStateFromCoords (dallasLat + _ * (dallasLat - dallasLat))
      (dallasLon + _ * (dallasLon - dallasLon)) = "TX"
    simp only [sub_self, mul_zero, add_zero]
    norm_num [getStateFromCoords, stateScan, STATE_BOUNDS, dallasLat, dallasLon]
  have hstate : ((scanRoute (dallasLat, dallasLon) (dallasLat, dallasLon) ctxFL 20).2).state = "TX" := by
    calc ((scanRoute (dallasLat, dallasLon) (dallasLat, dallasLon) ctxFL 20).2).state
        = (scanSegments ctxFL
            (if (interpolateRoute (dallasLat, dallasLon) (dallasLat, dallasLon) 20).length > MAX_SEGMENTS
              then (interpolateRoute (dallasLat, dallasLon) (dallasLat, dallasLon) 20).take MAX_SEGMENTS
              else interpolateRoute (dallasLat, dallasLon) (dallasLat, dallasLon) 20) 1).2.state := rfl
      _ = "TX" := by
          rw [interpolate_self_cap]
          exact scanSegments_state_const _ ctxFL 1 "TX" hne hall
  refine ⟨?_, hstate, rfl⟩
  intro heq
  have h2 := congrArg RiskContext.state heq
  rw [hstate] at h2
  exact absurd h2 (by decide)
end SafeTravels

namespace SafeTravels

/-! ## C8: zone grouping -/

/-- Spec-side description of `_identify_zones`: the maximal runs of
consecutive segments whose `zone_type` equals `t`, threaded with the
current open run `cur`.  This definition follows the specification text
("groups exactly the maximal runs of consecutive segments of the requested
zone type") and is compared against the source-side `identifyZones`. -/
def maximalRuns (t : String) : List RouteSegment → List RouteSegment →
    List (List RouteSegment)
  | cur, [] => if cur.isEmpty then [] else [cur]
  | cur, s :: rest =>
    if s.zone_type = t then maximalRuns t (cur ++ [s]) rest
    else if cur.isEmpty then maximalRuns t [] rest
    else cur :: maximalRuns t [] rest

lemma identifyZones_foldl (t : String) (segs : List RouteSegment) :
    ∀ (zones : List RedZone) (cur : List RouteSegment),
      (if (segs.foldl (identifyZonesStep t) (zones, cur)).2.isEmpty
        then (segs.foldl (identifyZonesStep t) (zones, cur)).1
        else (segs.foldl (identifyZonesStep t) (zones, cur)).1
          ++ [createZone (segs.foldl (identifyZonesStep t) (zones, cur)).2 t])
      = zones ++ (maximalRuns t cur segs).map (fun run => createZone run t) := by
  induction segs with
  | nil =>
    intro zones cur
    by_cases hc : cur.isEmpty = true
    · simp [maximalRuns, hc]
    · simp [maximalRuns, hc]
  | cons s rest ih =>
    intro zones cur
    by_cases hs : s.zone_type = t
    · have hstep : identifyZonesStep t (zones, cur) s = (zones, cur ++ [s]) := by
        simp [identifyZonesStep, hs]
      rw [List.foldl_cons, hstep, ih]
      rw [show maximalRuns t cur (s :: rest) = maximalRuns t (cur ++ [s]) rest from by
        simp [maximalRuns, hs]]
    · by_cases hc : cur.isEmpty = true
      · have hcur : cur = [] := by
          cases cur with
          | nil => rfl
          | cons a l => simp at hc
        subst hcur
        have hstep : identifyZonesStep t (zones, []) s = (zones, []) := by
          simp [identifyZonesStep, hs]
        rw [List.foldl_cons, hstep, ih]
        rw [show maximalRuns t [] (s :: rest) = maximalRuns t [] rest from by
          simp [maximalRuns, hs]]
      · have hstep : identifyZonesStep t (zones, cur) s
            = (zones ++ [createZone cur t], []) := by
          simp [identifyZonesStep, hs, hc]
        rw [List.foldl_cons, hstep, ih]
        rw [show maximalRuns t cur (s :: rest) = cur :: maximalRuns t [] rest from by
          simp [maximalRuns, hs, hc]]
        simp

lemma identifyZones_eq (segs : List RouteSegment) (t : String) :
    identifyZones segs t = (maximalRuns t [] segs).map (fun run => createZone run t) := by
  simp only [identifyZones]
  rw [identifyZones_foldl t segs [] []]
  exact List.nil_append _

lemma maximalRuns_sound (t : String) (segs : List RouteSegment) :
    ∀ (cur : List RouteSegment), (∀ s ∈ cur, s.zone_type = t) →
      ∀ r ∈ maximalRuns t cur segs, r ≠ [] ∧ ∀ s ∈ r, s.zone_type = t := by
  induction segs with
  | nil =>
    intro cur hcur r hr
    by_cases hc : cur.isEmpty = true
    · rw [show maximalRuns t cur [] = [] from by simp [maximalRuns, hc]] at hr
      exact absurd hr (List.not_mem_nil r)
    · rw [show maximalRuns t cur [] = [cur] from by simp [maximalRuns, hc]] at hr
      have hrc : r = cur := by simpa using hr
      subst hrc
      refine ⟨?_, hcur⟩
      intro hnil
      rw [hnil] at hc
      exact hc rfl
  | cons s rest ih =>
    intro cur hcur r hr
    by_cases hs : s.zone_type = t
    · rw [show maximalRuns t cur (s :: rest) = maximalRuns t (cur ++ [s]) rest from by
        simp [maximalRuns, hs]] at hr
      refine ih (cur ++ [s]) ?_ r hr
      intro x hx
      rcases List.mem_append.mp hx with h | h
      · exact hcur x h
      · have hxs : x = s := by simpa using h
        rw [hxs]
        exact hs
    · by_cases hc : cur.isEmpty = true
      · rw [show maximalRuns t cur (s :: rest) = maximalRuns t [] rest from by
          simp [maximalRuns, hs, hc]] at hr
        exact ih [] (by simp) r hr
      · rw [show maximalRuns t cur (s :: rest) = cur :: maximalRuns t [] rest from by
          simp [maximalRuns, hs, hc]] at hr
        rcases List.mem_cons.mp hr with h | h
        · subst h
          refine ⟨?_, hcur⟩
          intro hnil
          rw [hnil] at hc
          exact hc rfl
        · exact ih [] (by simp) r h

lemma maximalRuns_flatten_sublist (t : String) (segs : List RouteSegment) :
    ∀ (cur : List RouteSegment), List.Sublist (maximalRuns t cur segs).flatten (cur ++ segs) := by
  induction segs with
  | nil =>
    intro cur
    by_cases hc : cur.isEmpty = true
    · simp [maximalRuns, hc]
    · rw [show maximalRuns t cur [] = [cur] from by simp [maximalRuns, hc]]
      simp
  | cons s rest ih =>
    intro cur
    by_cases hs : s.zone_type = t
    · rw [show maximalRuns t cur (s :: rest) = maximalRuns t (cur ++ [s]) rest from by
        simp [maximalRuns, hs]]
      have h := ih (cur ++ [s])
      rw [List.append_assoc, List.singleton_append] at h
      exact h
    · have h2 : List.Sublist (maximalRuns t [] rest).flatten rest := by simpa using ih []
      by_cases hc : cur.isEmpty = true
      · have hcur : cur = [] := by
          cases cur with
          | nil => rfl
          | cons a l => simp at hc
        subst hcur
        rw [show maximalRuns t [] (s :: rest) = maximalRuns t [] rest from by
          simp [maximalRuns, hs]]
        simpa using h2.trans (List.sublist_cons_self s rest)
      · rw [show maximalRuns t cur (s :: rest) = cur :: maximalRuns t [] rest from by
          simp [maximalRuns, hs, hc]]
        rw [List.flatten_cons]
        exact List.Sublist.append (List.Sublist.refl cur)
          (h2.trans (List.sublist_cons_self s rest))

lemma headD_mem_of_ne_nil {α : Type} (l : List α) (d : α) (h : l ≠ []) :
    l.headD d ∈ l := by
  cases l with
  | nil => exact absurd rfl h
  | cons a l => simp

lemma getLastD_mem_of_ne_nil {α : Type} (l : List α) :
    ∀ (d : α), l ≠ [] → l.getLastD d ∈ l := by
  induction l with
  | nil => intro d h; exact absurd rfl h
  | cons a l ih =>
    intro d _
    cases l with
    | nil => simp
    | cons b m =>
      rw [List.getLastD_cons]
      exact List.mem_cons_of_mem a (ih a (by simp))

lemma identifyZones_sorted (segs : List RouteSegment) (t : String)
    (h : segs.Pairwise (fun a b => a.mile_marker < b.mile_marker)) :
    (identifyZones segs t).Pairwise (fun z1 z2 => z1.end_mile < z2.start_mile) := by
  rw [identifyZones_eq, List.pairwise_map]
  have hsub : List.Sublist (maximalRuns t [] segs).flatten segs := by
    simpa using maximalRuns_flatten_sublist t segs []
  have hflat := List.Pairwise.sublist hsub h
  rw [List.pairwise_flatten] at hflat
  refine List.Pairwise.imp_of_mem ?_ hflat.2
  intro r1 r2 h1 h2 hrel
  have hr1 := maximalRuns_sound t segs [] (by simp) r1 h1
  have hr2 := maximalRuns_sound t segs [] (by simp) r2 h2
  show (r1.getLastD {}).mile_marker < (r2.headD {}).mile_marker
  exact hrel _ (getLastD_mem_of_ne_nil r1 {} hr1.1) _ (headD_mem_of_ne_nil r2 {} hr2.1)

lemma identifyZones_zone_bounds (segs : List RouteSegment) (t : String)
    (h : segs.Pairwise (fun a b => a.mile_marker < b.mile_marker)) :
    ∀ z ∈ identifyZones segs t, z.start_mile ≤ z.end_mile := by
  intro z hz
  rw [identifyZones_eq] at hz
  obtain ⟨r, hr, rfl⟩ := List.mem_map.mp hz
  have hsound := maximalRuns_sound t segs [] (by simp) r hr
  have hrsub : List.Sublist r segs :=
    (List.sublist_flatten_of_mem hr).trans
      (by simpa using maximalRuns_flatten_sublist t segs [])
  have hpr := List.Pairwise.sublist hrsub h
  show (r.headD {}).mile_marker ≤ (r.getLastD {}).mile_marker
  obtain ⟨a, l, rfl⟩ := List.exists_cons_of_ne_nil hsound.1
  cases l with
  | nil => simp
  | cons b m =>
    rw [List.headD_cons, List.getLastD_cons]
    have hmem : (b :: m).getLastD a ∈ b :: m :=
      getLastD_mem_of_ne_nil (b :: m) a (by simp)
    exact le_of_lt (List.rel_of_pairwise_cons hpr hmem)

/-- A synthetic route segment carrying only the fields `_identify_zones`
reads: position, zone type, mile marker, risk score. -/
def mkSeg (i : ℕ) (zt : String) (mile : ℝ) (risk : ℚ) : RouteSegment :=
  { segment_id := i, mile_marker := mile, risk_score := risk, zone_type := zt }

/-- The segment sequence [green, red, red, yellow, red, green] of the claim,
at mile markers 0, 20, 40, 60, 80, 100. -/
def exSegs : List RouteSegment :=
  [ mkSeg 0 "green" 0 3, mkSeg 1 "red" 20 8, mkSeg 2 "red" 40 9,
    mkSeg 3 "yellow" 60 6, mkSeg 4 "red" 80 7, mkSeg 5 "green" 100 2 ]

/-- C8: `_identify_zones` groups exactly the maximal runs of consecutive
segments of the requested zone type: it equals mapping `_create_zone` over
the maximal runs; every run is nonempty and consists only of segments of the
requested type (so a zone never spans a segment of a different color); when
mile markers strictly increase along the route, zones are ordered and
non-overlapping (each zone ends strictly before the next begins, and each
zone's start is at most its end); and on the claim's sequence
[green, red, red, yellow, red, green] it returns exactly 2 red zones,
spanning miles 20–40 and 80–80. -/
theorem C8_zone_grouping :
    (∀ (segs : List RouteSegment) (t : String),
        identifyZones segs t
          = (maximalRuns t [] segs).map (fun run => createZone run t)) ∧
    (∀ (segs : List RouteSegment) (t : String) (r : List RouteSegment),
        r ∈ maximalRuns t [] segs → r ≠ [] ∧ ∀ s ∈ r, s.zone_type = t) ∧
    (∀ (segs : List RouteSegment) (t : String),
        segs.Pairwise (fun a b => a.mile_marker < b.mile_marker) →
        (identifyZones segs t).Pairwise (fun z1 z2 => z1.end_mile < z2.start_mile)) ∧
    (∀ (segs : List RouteSegment) (t : String),
        segs.Pairwise (fun a b => a.mile_marker < b.mile_marker) →
        ∀ z ∈ identifyZones segs t, z.start_mile ≤ z.end_mile) ∧
    (identifyZones exSegs "red").length = 2 ∧
    (identifyZones exSegs "red").map (fun z => (z.start_mile, z.end_mile))
      = [((20 : ℝ), (40 : ℝ)), ((80 : ℝ), (80 : ℝ))] := by
  refine ⟨identifyZones_eq, ?_, identifyZones_sorted, identifyZones_zone_bounds, ?_, ?_⟩
  · intro segs t r hr
    exact maximalRuns_sound t segs [] (by simp) r hr
  · rfl
  · rfl

/-- C8 witness: the ordering conjunct applied to the concrete claim
sequence, whose mile markers 0, 20, 40, 60, 80, 100 strictly increase. -/
theorem C8_witness :
    (identifyZones exSegs "red").Pairwise (fun z1 z2 => z1.end_mile < z2.start_mile) :=
  C8_zone_grouping.2.2.1 exSegs "red"
    (by norm_num [exSegs, mkSeg, List.pairwise_cons])
end SafeTravels
